import Mathlib

/-!
Verification development for the DEBIAS Ecommerce-API recommendation engine.

This file gives a shallow embedding, in Lean, of the parts of the code base
that the specification talks about:

* the projector workers (`app/workers/event_processor.py`): JSON message
  handling, required-field validation, the retry / dead-letter flow;
* the graph-store query semantics (`app/services/neo4j_service.py`): each
  Cypher query is modelled as a pure function over an explicit list of
  interaction edges;
* the query texts actually sent to the graph store, together with their
  parameter maps (for the parameterization property);
* the recommendation orchestrator (`app/services/orchestrator_service.py`):
  mode classification, budget allocation, per-source fetching, merging,
  deduplication, sorting, truncation and enrichment, over an abstract
  record of backing services that can either answer or raise.

Modelling conventions, used throughout:

* Python `float` values are embedded as exact fractions (`PyFloat` below,
  an integer numerator with a positive natural denominator, compared by
  cross-multiplication).  The code only adds, multiplies, divides and
  compares these values, so exact arithmetic is the standard abstraction;
  IEEE-754 rounding is not modelled.
* Python `int` is embedded as `Int` (unbounded in both).
* Timestamps are stored by the code as `"YYYY-MM-DD HH:MM:SS"` strings whose
  lexicographic order coincides with chronological order; they are embedded
  as `Nat` with the same order.
* Python `list.sort` is a stable sort; it is embedded as
  `List.insertionSort`, which is stable and, unlike `List.mergeSort`,
  reduces inside the kernel.
* A raising Python call is embedded as `Except String α`; a `try/except`
  block becomes a `match` on that result.
* Cypher aggregation (`WITH ... count(...)`) groups rows; the embedding
  enumerates group keys in first-appearance order.  `ORDER BY ... LIMIT` is
  a stable sort followed by `take`; the database leaves the order of ties
  unspecified, and the embedding fixes the deterministic stable choice.
-/

/-- First-occurrence deduplication (the behaviour of iterating a Python
`dict` / building a `set` from a list, as far as membership and order of
first appearance are concerned). -/
def dedupKeepFirstAux {α : Type} [DecidableEq α] (seen : List α) : List α → List α
  | [] => []
  | x :: xs =>
    if x ∈ seen then dedupKeepFirstAux seen xs
    else x :: dedupKeepFirstAux (x :: seen) xs

/-- First-occurrence deduplication starting from nothing seen. -/
def dedupKeepFirst {α : Type} [DecidableEq α] (l : List α) : List α :=
  dedupKeepFirstAux [] l

/-- Python slicing `l[:k]`: a non-negative `k` takes the first `k` elements,
a negative `k` drops the last `|k|` elements. -/
def pySlice {α : Type} (l : List α) (k : Int) : List α :=
  if 0 ≤ k then l.take k.toNat else l.take (l.length - (-k).toNat)

/-! ## Python floats as exact fractions

`PyFloat` is an exact fraction: numerator over a positive denominator.  It
is deliberately not normalized (no gcd), so that every operation reduces
inside the kernel.  All observations the embedded code makes of scores and
weights are order comparisons, plus the arithmetic in the orchestrator's
budget allocation. -/

structure PyFloat where
  num : Int
  den : Nat
  den_pos : 0 < den

instance : Repr PyFloat := ⟨fun x _ => repr (x.num, x.den)⟩

instance : DecidableEq PyFloat := fun x y =>
  decidable_of_iff (x.num = y.num ∧ x.den = y.den) (by cases x; cases y; simp)

/-- Embed an integer. -/
def PyFloat.ofInt (n : Int) : PyFloat := ⟨n, 1, Nat.one_pos⟩

def PyFloat.add (x y : PyFloat) : PyFloat :=
  ⟨x.num * y.den + y.num * x.den, x.den * y.den, Nat.mul_pos x.den_pos y.den_pos⟩

def PyFloat.mul (x y : PyFloat) : PyFloat :=
  ⟨x.num * y.num, x.den * y.den, Nat.mul_pos x.den_pos y.den_pos⟩

/-- Division.  Python raises `ZeroDivisionError` when the divisor is zero;
the embedding returns the junk value `0` there, and every theorem whose
run would divide by zero carries a hypothesis ruling it out. -/
def PyFloat.div (x y : PyFloat) : PyFloat :=
  if h : y.num = 0 then ⟨0, 1, Nat.one_pos⟩
  else
    ⟨x.num * y.den * y.num.sign, x.den * y.num.natAbs,
     Nat.mul_pos x.den_pos (Int.natAbs_pos.mpr h)⟩

/-- Strict comparison `x < y`, by cross-multiplication. -/
def PyFloat.blt (x y : PyFloat) : Bool := x.num * y.den < y.num * x.den

/-- Comparison `x ≤ y`, by cross-multiplication. -/
def PyFloat.ble (x y : PyFloat) : Bool := x.num * y.den ≤ y.num * x.den

/-- The rational value of a `PyFloat` (for specification statements). -/
def PyFloat.toRat (x : PyFloat) : ℚ := (x.num : ℚ) / (x.den : ℚ)

/-- Python `int()` applied to a float: truncation toward zero. -/
def pyTrunc (x : PyFloat) : Int := x.num.tdiv x.den

theorem PyFloat.ble_iff_toRat_le (x y : PyFloat) : x.ble y = true ↔ x.toRat ≤ y.toRat := by
  have hx : (0 : ℚ) < (x.den : ℚ) := by exact_mod_cast x.den_pos
  have hy : (0 : ℚ) < (y.den : ℚ) := by exact_mod_cast y.den_pos
  rw [PyFloat.ble, decide_eq_true_eq, PyFloat.toRat, PyFloat.toRat,
    div_le_div_iff₀ hx hy]
  constructor
  · intro h; exact_mod_cast h
  · intro h; exact_mod_cast h

theorem PyFloat.blt_iff_toRat_lt (x y : PyFloat) : x.blt y = true ↔ x.toRat < y.toRat := by
  have hx : (0 : ℚ) < (x.den : ℚ) := by exact_mod_cast x.den_pos
  have hy : (0 : ℚ) < (y.den : ℚ) := by exact_mod_cast y.den_pos
  rw [PyFloat.blt, decide_eq_true_eq, PyFloat.toRat, PyFloat.toRat,
    div_lt_div_iff₀ hx hy]
  constructor
  · intro h; exact_mod_cast h
  · intro h; exact_mod_cast h

theorem PyFloat.ble_trans {x y z : PyFloat} (h1 : x.ble y = true) (h2 : y.ble z = true) :
    x.ble z = true := by
  rw [PyFloat.ble_iff_toRat_le] at h1 h2 ⊢
  exact le_trans h1 h2

theorem PyFloat.ble_total (x y : PyFloat) : x.ble y = true ∨ y.ble x = true := by
  rw [PyFloat.ble_iff_toRat_le, PyFloat.ble_iff_toRat_le]
  exact le_total x.toRat y.toRat

theorem PyFloat.toRat_ofInt (n : Int) : (PyFloat.ofInt n).toRat = (n : ℚ) := by
  simp [PyFloat.ofInt, PyFloat.toRat]

theorem PyFloat.toRat_add (x y : PyFloat) : (x.add y).toRat = x.toRat + y.toRat := by
  have hx : ((x.den : ℚ)) ≠ 0 := by exact_mod_cast x.den_pos.ne'
  have hy : ((y.den : ℚ)) ≠ 0 := by exact_mod_cast y.den_pos.ne'
  simp only [PyFloat.add, PyFloat.toRat]
  push_cast
  field_simp

theorem PyFloat.toRat_mul (x y : PyFloat) : (x.mul y).toRat = x.toRat * y.toRat := by
  simp only [PyFloat.mul, PyFloat.toRat]
  push_cast
  field_simp

theorem PyFloat.toRat_eq_zero_iff (x : PyFloat) : x.toRat = 0 ↔ x.num = 0 := by
  have hx : ((x.den : ℚ)) ≠ 0 := by exact_mod_cast x.den_pos.ne'
  rw [PyFloat.toRat, div_eq_zero_iff]
  simp [hx]

theorem PyFloat.toRat_div (x y : PyFloat) (h : y.num ≠ 0) :
    (x.div y).toRat = x.toRat / y.toRat := by
  have hxd : ((x.den : ℚ)) ≠ 0 := by exact_mod_cast x.den_pos.ne'
  have hyd : ((y.den : ℚ)) ≠ 0 := by exact_mod_cast y.den_pos.ne'
  have hnq : ((y.num : ℚ)) ≠ 0 := by exact_mod_cast h
  simp only [PyFloat.div, dif_neg h, PyFloat.toRat]
  push_cast
  rcases lt_trichotomy y.num 0 with hneg | hzero | hpos
  · have hs : y.num.sign = -1 := Int.sign_eq_neg_one_of_neg hneg
    have ha : ((y.num.natAbs : ℚ)) = -(y.num : ℚ) := by
      rw [Int.cast_natAbs, abs_of_neg hneg]
      push_cast
      ring
    rw [hs, ha]
    push_cast
    field_simp
  · exact absurd hzero h
  · have hs : y.num.sign = 1 := Int.sign_eq_one_of_pos hpos
    have ha : ((y.num.natAbs : ℚ)) = (y.num : ℚ) := by
      rw [Int.cast_natAbs, abs_of_pos hpos]
    rw [hs, ha]
    push_cast
    field_simp

theorem pyTrunc_eq_floor (x : PyFloat) (h : 0 ≤ x.num) : pyTrunc x = ⌊x.toRat⌋ := by
  rw [PyFloat.toRat, Rat.floor_intCast_div_natCast, pyTrunc]
  exact Int.tdiv_eq_ediv h (Int.ofNat_nonneg x.den)

/-! ## Projector workers (`app/workers/event_processor.py`)

A delivered message body, once JSON-decoded, is an association list from
string keys to JSON values (`Message`).  `callback` takes the result of
`parse_message` (`none` for a JSON parse error) and returns the broker
action the worker performs on the delivery. -/

inductive JVal where
  | jint (n : Int)
  | jstr (s : String)
  | jnull
deriving DecidableEq, Repr

/-- A decoded JSON object (a Python dict): keys are unique. -/
abbrev Message := List (String × JVal)

/-- Python `dict.get(k)`: the value at `k`, or `None`. -/
def getField (m : Message) (k : String) : Option JVal :=
  match m with
  | [] => none
  | (k2, v) :: rest => if k2 = k then some v else getField rest k

/-- Python `dict.get(k, d)`: the value at `k`, or the default `d`. -/
def getFieldD (m : Message) (k : String) (d : JVal) : JVal := (getField m k).getD d

/-- Python `dict[k] = v`: replace the value at `k` in place, or append the new key. -/
def setField (m : Message) (k : String) (v : JVal) : Message :=
  match m with
  | [] => [(k, v)]
  | (k2, v2) :: rest => if k2 = k then (k2, v) :: rest else (k2, v2) :: setField rest k v

/-- Python truthiness of an optional JSON value: `None`, `0`, `""` and
`null` are falsy, everything else is truthy. -/
def jTruthy : Option JVal → Bool
  | none => false
  | some (.jint n) => n ≠ 0
  | some (.jstr s) => s ≠ ""
  | some .jnull => false

/-- The read `message.get("retry_count", 0)`.  The code would raise a `TypeError`
later if the field held a non-integer; a non-integer field is read as the
default `0` here (no claim exercises that corner). -/
def retryCount (m : Message) : Int :=
  match getField m "retry_count" with
  | some (.jint n) => n
  | _ => 0

/-- The schedule `self.retry_delays = [5, 30, 300]` (seconds). -/
def retry_delays : List Nat := [5, 30, 300]

/-- Method `BaseEventProcessor.should_retry`. -/
def should_retry (m : Message) : Bool := retryCount m < (retry_delays.length : Int)

/-- The arguments of a `neo4j.record_interaction` call made by the worker. -/
structure RecordCall where
  user_id : JVal
  product_id : JVal
  event_type : JVal
  session_id : JVal
  event_time : JVal
deriving DecidableEq, Repr

/-- The broker action a worker performs on one delivery.
`retryPublish msg delay` stands for: sleep `delay` seconds in-process,
publish `msg` to the fanout `events` exchange, then ack the original
delivery.  `rejectNoRequeue` stands for `basic_reject(requeue=False)`,
which the broker routes to the dead-letter queue. -/
inductive WorkerAction where
  | ack
  | rejectNoRequeue
  | retryPublish (msg : Message) (delaySeconds : Nat)
deriving DecidableEq, Repr

/-- Method `BaseEventProcessor.requeue_with_delay`.  `error` is the error string
passed by the caller and `now` the `datetime.utcnow().isoformat()` value.
On the else-branch the code also sets `final_error` / `failed_at` on its
local copy of the message before rejecting; the rejected delivery is the
original body, so those writes are not observable and are not modelled. -/
def requeuedMessage (m : Message) (error now : String) : Message :=
  setField (setField (setField m "retry_count" (.jint (retryCount m + 1)))
    "last_error" (.jstr error)) "last_retry_at" (.jstr now)

def requeue_with_delay (m : Message) (error now : String) : WorkerAction :=
  let rc := retryCount m
  if rc < (retry_delays.length : Int) then
    .retryPublish (requeuedMessage m error now) (retry_delays.getD rc.toNat 0)
  else
    .rejectNoRequeue

/-- Method `Neo4jEventProcessor.process_event`.  `record` is the
`neo4j.record_interaction` backend (`.error` = the call raised);
`defaultTime` is the `datetime.utcnow()` default for `event_time`.
Returns the boolean result together with the `record_interaction` call
made, if any (`none` = the store was never touched).  The surrounding
`try/except` returns `False` when the store raises. -/
def process_event_neo4j (record : RecordCall → Except String Bool) (defaultTime : String)
    (event : Message) : Bool × Option RecordCall :=
  let user_id := getField event "user_id"
  let product_id := getField event "product_id"
  let event_type := getField event "event_type"
  let session_id := getFieldD event "user_session" (.jstr "")
  let event_time := getFieldD event "event_time" (.jstr defaultTime)
  if jTruthy user_id && jTruthy product_id && jTruthy event_type then
    let call : RecordCall :=
      { user_id := user_id.getD .jnull, product_id := product_id.getD .jnull,
        event_type := event_type.getD .jnull, session_id := session_id,
        event_time := event_time }
    match record call with
    | .ok b => (b, some call)
    | .error _ => (false, some call)
  else
    (false, none)

/-- Method `QdrantEventProcessor.process_event`: validates the same required
fields, then succeeds without touching any store (the vector projector is
a placeholder). -/
def process_event_qdrant (event : Message) : Bool :=
  jTruthy (getField event "user_id") && jTruthy (getField event "product_id") &&
    jTruthy (getField event "event_type")

/-- Method `BaseEventProcessor.callback`, instantiated with the Neo4j projector's
`process_event`.  `body` is the result of `parse_message` (`none` = JSON
parse error).  `if not message` also rejects an empty JSON object.
`process_event` catches every exception internally and returns `False`,
so the callback's own `except` branch is unreachable for this processor;
a `False` result enters the retry flow when `should_retry` allows. -/
def callback_neo4j (record : RecordCall → Except String Bool) (defaultTime now : String)
    (body : Option Message) : WorkerAction :=
  match body with
  | none => .rejectNoRequeue
  | some message =>
    if message = [] then .rejectNoRequeue
    else if (process_event_neo4j record defaultTime message).1 then .ack
    else if should_retry message then requeue_with_delay message "Processing failed" now
    else .rejectNoRequeue

theorem getField_setField_self (m : Message) (k : String) (v : JVal) :
    getField (setField m k v) k = some v := by
  induction m with
  | nil => simp [setField, getField]
  | cons hd tl ih =>
    by_cases h : hd.1 = k
    · simp [setField, getField, h]
    · simp [setField, getField, h, ih]

theorem getField_setField_ne (m : Message) (k k2 : String) (v : JVal) (h : k ≠ k2) :
    getField (setField m k v) k2 = getField m k2 := by
  induction m with
  | nil => simp [setField, getField, h]
  | cons hd tl ih =>
    by_cases h1 : hd.1 = k
    · simp [setField, getField, h1, h]
    · simp only [setField, if_neg h1]
      by_cases h2 : hd.1 = k2
      · simp [getField, h2]
      · simp [getField, h2, ih]

/-! ## Graph store semantics (`app/services/neo4j_service.py`)

The interaction graph is the list of its `INTERACTED` edges (`User` and
`Product` nodes carry no further data, so they need no separate
representation: `MERGE` of the nodes is invisible to every query below).
Each query method is translated into a pure function of the edge list,
following its Cypher text clause by clause. -/

namespace Neo4jService

/-- One `INTERACTED` edge. -/
structure Edge where
  user_id : Int
  product_id : Int
  event_type : String
  event_time : Nat
  session_id : Option String
deriving DecidableEq, Repr

/-- The `CASE` weights appearing in the scoring queries
(`purchase = 80`, `cart = 30`, `view = 1`, `ELSE 0`). -/
def eventWeight (t : String) : Int :=
  if t = "purchase" then 80 else if t = "cart" then 30 else if t = "view" then 1 else 0

/-- Stable descending sort on `event_time` (`ORDER BY r.event_time DESC`). -/
def sortTimeDesc (l : List Edge) : List Edge :=
  List.insertionSort (fun a b => b.event_time ≤ a.event_time) l

structure CollabRec where
  product_id : Int
  recommender_count : Nat
  interaction_score : Int
  total_score : Int
deriving DecidableEq, Repr

/-- Method `get_collaborative_recommendations(user_id, limit, min_shared_products)`. -/
def get_collaborative_recommendations (g : List Edge) (uid limit min_shared : Int) :
    List CollabRec :=
  let myProducts :=
    dedupKeepFirst ((g.filter (fun e => decide (e.user_id = uid))).map (·.product_id))
  let allUsers := dedupKeepFirst (g.map (·.user_id))
  let shared := fun v =>
    (myProducts.filter
      (fun p => g.any (fun e => decide (e.user_id = v ∧ e.product_id = p)))).length
  let retained := allUsers.filter
    (fun v => decide (v ≠ uid ∧ 1 ≤ shared v ∧ min_shared ≤ (shared v : Int)))
  let rows := g.filter
    (fun e => decide (e.user_id ∈ retained ∧ e.product_id ∉ myProducts))
  let keys := dedupKeepFirst (rows.map (·.product_id))
  let recs := keys.map (fun q =>
    let qrows := rows.filter (fun e => decide (e.product_id = q))
    let rc := (dedupKeepFirst (qrows.map (·.user_id))).length
    let sc := qrows.foldl (fun acc e => acc + eventWeight e.event_type) 0
    ({ product_id := q, recommender_count := rc, interaction_score := sc,
       total_score := (rc : Int) * 10 + sc } : CollabRec))
  (List.insertionSort (fun a b => b.total_score ≤ a.total_score) recs).take limit.toNat

structure TrendRec where
  product_id : Int
  total_interactions : Nat
  unique_users : Nat
deriving DecidableEq, Repr

/-- Method `get_trending_products(limit, event_types)`.  `if event_types:` in the
source is Python truthiness, so `None` and `[]` both select the unfiltered
query.  The unfiltered query additionally returns per-type counters
(`purchases`, `carts`, `views`); no caller reads them and they are not
modelled. -/
def get_trending_products (g : List Edge) (limit : Int)
    (event_types : Option (List String)) : List TrendRec :=
  let useFilter := match event_types with | some ts => !ts.isEmpty | none => false
  let rows :=
    if useFilter then g.filter (fun e => (event_types.getD []).contains e.event_type) else g
  let keys := dedupKeepFirst (rows.map (·.product_id))
  let recs := keys.map (fun p =>
    let prows := rows.filter (fun e => decide (e.product_id = p))
    ({ product_id := p, total_interactions := prows.length,
       unique_users := (dedupKeepFirst (prows.map (·.user_id))).length } : TrendRec))
  (List.insertionSort (fun a b => b.total_interactions ≤ a.total_interactions) recs).take
    limit.toNat

structure HistRec where
  product_id : Int
  event_type : String
  event_time : Nat
  session_id : Option String
deriving DecidableEq, Repr

/-- Method `get_user_history(user_id, limit, event_types)`. -/
def get_user_history (g : List Edge) (uid limit : Int)
    (event_types : Option (List String)) : List HistRec :=
  let useFilter := match event_types with | some ts => !ts.isEmpty | none => false
  let rows := g.filter (fun e =>
    decide (e.user_id = uid) &&
      (!useFilter || (event_types.getD []).contains e.event_type))
  ((sortTimeDesc rows).take limit.toNat).map (fun e =>
    ({ product_id := e.product_id, event_type := e.event_type,
       event_time := e.event_time, session_id := e.session_id } : HistRec))

structure RecentRec where
  product_id : Int
  event_type : String
  event_time : Nat
deriving DecidableEq, Repr

/-- Method `get_recent_viewed_products(user_id, limit)`: view/cart edges of the
user, most recent first; `RETURN DISTINCT` collapses equal projected
rows (product, type, time); `LIMIT` truncates. -/
def get_recent_viewed_products (g : List Edge) (uid limit : Int) : List RecentRec :=
  let rows := g.filter (fun e =>
    decide (e.user_id = uid ∧ (e.event_type = "view" ∨ e.event_type = "cart")))
  let projected := (sortTimeDesc rows).map (fun e =>
    ({ product_id := e.product_id, event_type := e.event_type,
       event_time := e.event_time } : RecentRec))
  (dedupKeepFirst projected).take limit.toNat

/-- The result dict of `has_recent_purchase`: either
`{"has_purchase": False}` or the most recent purchase's data with
`"has_purchase": True`. -/
inductive HRP where
  | noPurchase
  | purchase (last_purchased_product_id : Int) (purchase_time : Nat)
      (session_id : Option String)
deriving DecidableEq, Repr

/-- Method `has_recent_purchase(user_id, lookback_hours)`.  The Cypher text never
mentions `lookback_hours`: it sorts all purchase edges of the user by time
and returns the top one, whatever its age.  The parameter is kept to
mirror the signature. -/
def has_recent_purchase (g : List Edge) (uid : Int) (lookback_hours : Int) : HRP :=
  let rows := g.filter (fun e => decide (e.user_id = uid ∧ e.event_type = "purchase"))
  match (sortTimeDesc rows).head? with
  | none => .noPurchase
  | some e => .purchase e.product_id e.event_time e.session_id

structure CompRec where
  product_id : Int
  buyer_count : Nat
  purchase_count : Nat
  score : Int
deriving DecidableEq, Repr

/-- The session condition of the complementary query:
`r2.session_id IS NULL OR r1.session_id IS NULL OR r2.session_id <> r1.session_id`. -/
def sessionsDiffer (s1 s2 : Option String) : Bool :=
  match s2, s1 with
  | none, _ => true
  | _, none => true
  | some b, some a => decide (b ≠ a)

/-- Method `get_complementary_products(product_id, limit)`: rows are the
`(r1, r2)` pairs of purchase edges (r1 into `product_id`, r2 by the same
user into another product, in a different-or-unknown session), grouped by
the other product; `buyer_count` counts distinct users, `purchase_count`
counts rows; `score = buyer_count * 2 + purchase_count`. -/
def get_complementary_products (g : List Edge) (pid limit : Int) : List CompRec :=
  let pairs := g.flatMap (fun e1 =>
    if e1.product_id = pid ∧ e1.event_type = "purchase" then
      (g.filter (fun e2 =>
        decide (e2.user_id = e1.user_id ∧ e2.event_type = "purchase" ∧
          e2.product_id ≠ pid) && sessionsDiffer e1.session_id e2.session_id)).map
        (fun e2 => (e1, e2))
    else [])
  let keys := dedupKeepFirst (pairs.map (fun pr => pr.2.product_id))
  let recs := keys.map (fun q =>
    let qrows := pairs.filter (fun pr => decide (pr.2.product_id = q))
    let bc := (dedupKeepFirst (qrows.map (fun pr => pr.1.user_id))).length
    ({ product_id := q, buyer_count := bc, purchase_count := qrows.length,
       score := (bc : Int) * 2 + qrows.length } : CompRec))
  (List.insertionSort (fun a b => b.score ≤ a.score) recs).take limit.toNat

structure PurchRec where
  product_id : Int
  event_time : Nat
  session_id : Option String
deriving DecidableEq, Repr

/-- Method `get_user_purchase_history(user_id, limit)`. -/
def get_user_purchase_history (g : List Edge) (uid limit : Int) : List PurchRec :=
  let rows := g.filter (fun e => decide (e.user_id = uid ∧ e.event_type = "purchase"))
  ((sortTimeDesc rows).take limit.toNat).map (fun e =>
    ({ product_id := e.product_id, event_time := e.event_time,
       session_id := e.session_id } : PurchRec))

end Neo4jService

/-! ## Queries sent to the graph store (`app/services/neo4j_service.py`)

For the parameterization property the observable behaviour of each graph
method is the pair (query text, parameter map) it hands to
`session.run`.  The texts below are the verbatim Cypher strings of the
source.  Only `rerank_by_popularity` and `rerank_for_user` build their
text from an input: `if limit: query += f" LIMIT {limit}"` — note that a
supplied limit of `0` is falsy and appends nothing. -/

namespace Neo4jQueries

/-- A parameter value passed to `session.run`. -/
inductive PVal where
  | pint (n : Int)
  | pstr (s : String)
  | poptStr (s : Option String)
  | pints (ns : List Int)
  | pstrs (ss : List String)
  | pdicts (ds : List Message)
deriving DecidableEq, Repr

/-- A query as sent: its text and its named parameters, in call order. -/
structure SentQuery where
  text : String
  params : List (String × PVal)
deriving DecidableEq, Repr

def record_interaction_text : String :=
  "\n        MERGE (u:User \x7buser_id: $user_id\x7d)\n        MERGE (p:Product \x7bproduct_id: $product_id\x7d)\n        CREATE (u)-[r:INTERACTED \x7b\n            event_type: $event_type,\n            event_time: $event_time,\n            session_id: $session_id\n        \x7d]->(p)\n        RETURN r\n        "

def record_batch_interactions_text : String :=
  "\n        UNWIND $interactions AS i\n        MERGE (u:User \x7buser_id: i.user_id\x7d)\n        MERGE (p:Product \x7bproduct_id: i.product_id\x7d)\n        CREATE (u)-[r:INTERACTED \x7b\n            event_type: i.event_type,\n            event_time: i.event_time,\n            session_id: i.session_id\n        \x7d]->(p)\n        RETURN count(r) AS count\n        "

def get_collaborative_recommendations_text : String :=
  "\n        // Find products the user has interacted with\n        MATCH (me:User \x7buser_id: $user_id\x7d)-[:INTERACTED]->(my_products:Product)\n        \n        // Find similar users who interacted with the same products\n        MATCH (my_products)<-[:INTERACTED]-(similar:User)\n        WHERE similar.user_id <> $user_id\n        \n        // Count shared products per similar user\n        WITH me, similar, count(DISTINCT my_products) AS shared_count\n        WHERE shared_count >= $min_shared\n        \n        // Find products those similar users liked that I haven\x27t seen\n        MATCH (similar)-[r:INTERACTED]->(rec:Product)\n        WHERE NOT (me)-[:INTERACTED]->(rec)\n        \n        // Score by weighted interaction type and number of similar users\n        WITH rec.product_id AS product_id,\n             count(DISTINCT similar) AS recommender_count,\n             sum(CASE \n                 WHEN r.event_type = \x27purchase\x27 THEN 80\n                 WHEN r.event_type = \x27cart\x27 THEN 30\n                 WHEN r.event_type = \x27view\x27 THEN 1\n                 ELSE 0 \n             END) AS interaction_score\n        \n        RETURN product_id,\n               recommender_count,\n               interaction_score,\n               (recommender_count * 10 + interaction_score) AS total_score\n        ORDER BY total_score DESC\n        LIMIT $limit\n        "

def get_similar_users_text : String :=
  "\n        MATCH (me:User \x7buser_id: $user_id\x7d)-[:INTERACTED]->(p:Product)<-[:INTERACTED]-(other:User)\n        WHERE other.user_id <> $user_id\n        \n        WITH other, count(DISTINCT p) AS shared_products\n        \n        // Get total products each user has interacted with\n        MATCH (me:User \x7buser_id: $user_id\x7d)-[:INTERACTED]->(my_p:Product)\n        WITH other, shared_products, count(DISTINCT my_p) AS my_total\n        \n        MATCH (other)-[:INTERACTED]->(other_p:Product)\n        WITH other, shared_products, my_total, count(DISTINCT other_p) AS other_total\n        \n        // Jaccard similarity\n        WITH other,\n             shared_products,\n             toFloat(shared_products) / (my_total + other_total - shared_products) AS similarity\n        \n        RETURN other.user_id AS user_id,\n               shared_products,\n               similarity\n        ORDER BY similarity DESC\n        LIMIT $limit\n        "

def get_similar_products_text : String :=
  "\n        MATCH (p:Product \x7bproduct_id: $product_id\x7d)<-[:INTERACTED]-(u:User)-[r:INTERACTED]->(other:Product)\n        WHERE other.product_id <> $product_id\n        \n        WITH other.product_id AS product_id,\n             count(DISTINCT u) AS shared_users,\n             sum(CASE \n                 WHEN r.event_type = \x27purchase\x27 THEN 80\n                 WHEN r.event_type = \x27cart\x27 THEN 30\n                 WHEN r.event_type = \x27view\x27 THEN 1\n                 ELSE 1 \n             END) AS interaction_score\n        \n        RETURN product_id,\n               shared_users,\n               interaction_score\n        ORDER BY shared_users DESC, interaction_score DESC\n        LIMIT $limit\n        "

def get_frequently_bought_together_text : String :=
  "\n        MATCH (p:Product \x7bproduct_id: $product_id\x7d)<-[r1:INTERACTED]-(u:User)-[r2:INTERACTED]->(other:Product)\n        WHERE other.product_id <> $product_id\n          AND r1.event_type = \x27purchase\x27\n          AND r2.event_type = \x27purchase\x27\n          AND r1.session_id = r2.session_id\n        \n        WITH other.product_id AS product_id,\n             count(*) AS co_purchase_count\n        \n        RETURN product_id, co_purchase_count\n        ORDER BY co_purchase_count DESC\n        LIMIT $limit\n        "

def get_also_viewed_text : String :=
  "\n        MATCH (p:Product \x7bproduct_id: $product_id\x7d)<-[r1:INTERACTED]-(u:User)-[r2:INTERACTED]->(other:Product)\n        WHERE other.product_id <> $product_id\n          AND r1.event_type = \x27view\x27\n          AND r2.event_type = \x27view\x27\n          AND r1.session_id = r2.session_id\n        \n        WITH other.product_id AS product_id,\n             count(DISTINCT u) AS user_count,\n             count(*) AS view_count\n        \n        RETURN product_id, user_count, view_count\n        ORDER BY user_count DESC, view_count DESC\n        LIMIT $limit\n        "

def get_trending_products_filtered_text : String :=
  "\n            MATCH (u:User)-[r:INTERACTED]->(p:Product)\n            WHERE r.event_type IN $event_types\n            \n            WITH p.product_id AS product_id,\n                 count(r) AS total_interactions,\n                 count(DISTINCT u) AS unique_users\n            \n            RETURN product_id, total_interactions, unique_users\n            ORDER BY total_interactions DESC\n            LIMIT $limit\n            "

def get_trending_products_all_text : String :=
  "\n            MATCH (u:User)-[r:INTERACTED]->(p:Product)\n            \n            WITH p.product_id AS product_id,\n                 count(r) AS total_interactions,\n                 count(DISTINCT u) AS unique_users,\n                 sum(CASE WHEN r.event_type = \x27purchase\x27 THEN 1 ELSE 0 END) AS purchases,\n                 sum(CASE WHEN r.event_type = \x27cart\x27 THEN 1 ELSE 0 END) AS carts,\n                 sum(CASE WHEN r.event_type = \x27view\x27 THEN 1 ELSE 0 END) AS views\n            \n            RETURN product_id, total_interactions, unique_users, purchases, carts, views\n            ORDER BY total_interactions DESC\n            LIMIT $limit\n            "

def get_product_stats_text : String :=
  "\n        MATCH (p:Product \x7bproduct_id: $product_id\x7d)\n        OPTIONAL MATCH (u:User)-[r:INTERACTED]->(p)\n        \n        WITH p,\n             count(r) AS total_interactions,\n             count(DISTINCT u) AS unique_users,\n             sum(CASE WHEN r.event_type = \x27view\x27 THEN 1 ELSE 0 END) AS views,\n             sum(CASE WHEN r.event_type = \x27cart\x27 THEN 1 ELSE 0 END) AS carts,\n             sum(CASE WHEN r.event_type = \x27purchase\x27 THEN 1 ELSE 0 END) AS purchases\n        \n        RETURN p.product_id AS product_id,\n               total_interactions,\n               unique_users,\n               views,\n               carts,\n               purchases,\n               CASE WHEN views > 0 \n                    THEN toFloat(purchases) / views \n                    ELSE 0 \n               END AS conversion_rate\n        "

def get_user_history_filtered_text : String :=
  "\n            MATCH (u:User \x7buser_id: $user_id\x7d)-[r:INTERACTED]->(p:Product)\n            WHERE r.event_type IN $event_types\n            \n            RETURN p.product_id AS product_id,\n                   r.event_type AS event_type,\n                   r.event_time AS event_time,\n                   r.session_id AS session_id\n            ORDER BY r.event_time DESC\n            LIMIT $limit\n            "

def get_user_history_all_text : String :=
  "\n            MATCH (u:User \x7buser_id: $user_id\x7d)-[r:INTERACTED]->(p:Product)\n            \n            RETURN p.product_id AS product_id,\n                   r.event_type AS event_type,\n                   r.event_time AS event_time,\n                   r.session_id AS session_id\n            ORDER BY r.event_time DESC\n            LIMIT $limit\n            "

def get_recent_viewed_products_text : String :=
  "\n        MATCH (u:User \x7buser_id: $user_id\x7d)-[r:INTERACTED]->(p:Product)\n        WHERE r.event_type IN [\x27view\x27, \x27cart\x27]\n        \n        WITH p, r, max(r.event_time) AS last_interaction\n        ORDER BY last_interaction DESC\n        \n        RETURN DISTINCT p.product_id AS product_id,\n               r.event_type AS event_type,\n               last_interaction AS event_time\n        LIMIT $limit\n        "

def has_recent_purchase_text : String :=
  "\n        MATCH (u:User \x7buser_id: $user_id\x7d)-[r:INTERACTED]->(p:Product)\n        WHERE r.event_type = \x27purchase\x27\n        \n        WITH p, r\n        ORDER BY r.event_time DESC\n        LIMIT 1\n        \n        RETURN p.product_id AS product_id,\n               r.event_time AS event_time,\n               r.session_id AS session_id\n        "

def get_complementary_products_text : String :=
  "\n        // Find users who purchased this product\n        MATCH (p:Product \x7bproduct_id: $product_id\x7d)<-[r1:INTERACTED]-(u:User)\n        WHERE r1.event_type = \x27purchase\x27\n        \n        // Find what else they purchased (not in the same session = complementary)\n        MATCH (u)-[r2:INTERACTED]->(other:Product)\n        WHERE other.product_id <> $product_id\n          AND r2.event_type = \x27purchase\x27\n          AND (r2.session_id IS NULL OR r1.session_id IS NULL OR r2.session_id <> r1.session_id)\n        \n        WITH other.product_id AS product_id,\n             count(DISTINCT u) AS buyer_count,\n             count(r2) AS purchase_count\n        \n        RETURN product_id,\n               buyer_count,\n               purchase_count,\n               (buyer_count * 2 + purchase_count) AS score\n        ORDER BY score DESC\n        LIMIT $limit\n        "

def get_category_trending_filtered_text : String :=
  "\n            MATCH (u:User)-[r:INTERACTED]->(p:Product)\n            WHERE p.category = $category\n              AND r.event_type IN $event_types\n            \n            WITH p.product_id AS product_id,\n                 count(r) AS total_interactions,\n                 count(DISTINCT u) AS unique_users\n            \n            RETURN product_id, total_interactions, unique_users\n            ORDER BY total_interactions DESC\n            LIMIT $limit\n            "

def get_category_trending_all_text : String :=
  "\n            MATCH (u:User)-[r:INTERACTED]->(p:Product)\n            WHERE p.category = $category\n            \n            WITH p.product_id AS product_id,\n                 count(r) AS total_interactions,\n                 count(DISTINCT u) AS unique_users\n            \n            RETURN product_id, total_interactions, unique_users\n            ORDER BY total_interactions DESC\n            LIMIT $limit\n            "

def get_user_purchase_history_text : String :=
  "\n        MATCH (u:User \x7buser_id: $user_id\x7d)-[r:INTERACTED]->(p:Product)\n        WHERE r.event_type = \x27purchase\x27\n        \n        RETURN p.product_id AS product_id,\n               r.event_time AS event_time,\n               r.session_id AS session_id\n        ORDER BY r.event_time DESC\n        LIMIT $limit\n        "

def get_stats_text : String :=
  "\n        MATCH (u:User) WITH count(u) AS user_count\n        MATCH (p:Product) WITH user_count, count(p) AS product_count\n        MATCH ()-[r:INTERACTED]->() WITH user_count, product_count, count(r) AS interaction_count\n        RETURN user_count, product_count, interaction_count\n        "

def rerank_by_popularity_base : String :=
  "\n        UNWIND $product_ids AS pid\n        MATCH (p:Product \x7bproduct_id: pid\x7d)\n        OPTIONAL MATCH (u:User)-[r:INTERACTED]->(p)\n        \n        WITH pid,\n             count(r) AS total_interactions,\n             sum(CASE \n                 WHEN r.event_type = \x27purchase\x27 THEN 80\n                 WHEN r.event_type = \x27cart\x27 THEN 30\n                 WHEN r.event_type = \x27view\x27 THEN 1\n                 ELSE 0 \n             END) AS weighted_score\n        \n        RETURN pid AS product_id,\n               total_interactions,\n               weighted_score\n        ORDER BY weighted_score DESC\n        "

def rerank_for_user_base : String :=
  "\n        // Find products the user has interacted with\n        MATCH (me:User \x7buser_id: $user_id\x7d)-[:INTERACTED]->(my_products:Product)\n        \n        // Find similar users\n        MATCH (my_products)<-[:INTERACTED]-(similar:User)\n        WHERE similar.user_id <> $user_id\n        \n        // Score candidate products by similar users\x27 interactions\n        WITH collect(DISTINCT similar) AS similar_users\n        \n        UNWIND $product_ids AS pid\n        MATCH (p:Product \x7bproduct_id: pid\x7d)\n        OPTIONAL MATCH (su)-[r:INTERACTED]->(p)\n        WHERE su IN similar_users\n        \n        WITH pid,\n             count(DISTINCT su) AS similar_user_count,\n             sum(CASE \n                 WHEN r.event_type = \x27purchase\x27 THEN 80\n                 WHEN r.event_type = \x27cart\x27 THEN 30\n                 WHEN r.event_type = \x27view\x27 THEN 1\n                 ELSE 0 \n             END) AS affinity_score\n        \n        RETURN pid AS product_id,\n               similar_user_count,\n               affinity_score\n        ORDER BY affinity_score DESC\n        "


/-- The line `if limit: query += f" LIMIT {limit}"` — the suffix appended by the two
rerank methods (empty for `None` and for the falsy `0`). -/
def limitSuffix (limit : Option Int) : String :=
  match limit with
  | none => ""
  | some l => if l = 0 then "" else " LIMIT " ++ toString l

def record_interaction_sent (user_id product_id : Int) (event_type : String)
    (session_id event_time : Option String) : SentQuery :=
  { text := record_interaction_text,
    params := [("user_id", .pint user_id), ("product_id", .pint product_id),
      ("event_type", .pstr event_type), ("event_time", .poptStr event_time),
      ("session_id", .poptStr session_id)] }

def record_batch_interactions_sent (interactions : List Message) : SentQuery :=
  { text := record_batch_interactions_text,
    params := [("interactions", .pdicts interactions)] }

def get_collaborative_recommendations_sent (user_id limit min_shared : Int) : SentQuery :=
  { text := get_collaborative_recommendations_text,
    params := [("user_id", .pint user_id), ("limit", .pint limit),
      ("min_shared", .pint min_shared)] }

def get_similar_users_sent (user_id limit : Int) : SentQuery :=
  { text := get_similar_users_text,
    params := [("user_id", .pint user_id), ("limit", .pint limit)] }

def get_similar_products_sent (product_id limit : Int) : SentQuery :=
  { text := get_similar_products_text,
    params := [("product_id", .pint product_id), ("limit", .pint limit)] }

def get_frequently_bought_together_sent (product_id limit : Int) : SentQuery :=
  { text := get_frequently_bought_together_text,
    params := [("product_id", .pint product_id), ("limit", .pint limit)] }

def get_also_viewed_sent (product_id limit : Int) : SentQuery :=
  { text := get_also_viewed_text,
    params := [("product_id", .pint product_id), ("limit", .pint limit)] }

/-- Method `get_trending_products` picks one of two constant texts by the
truthiness of `event_types`. -/
def get_trending_products_sent (limit : Int) (event_types : Option (List String)) :
    SentQuery :=
  match event_types with
  | some ts =>
    if ts.isEmpty then { text := get_trending_products_all_text, params := [("limit", .pint limit)] }
    else
      { text := get_trending_products_filtered_text,
        params := [("limit", .pint limit), ("event_types", .pstrs ts)] }
  | none => { text := get_trending_products_all_text, params := [("limit", .pint limit)] }

def get_product_stats_sent (product_id : Int) : SentQuery :=
  { text := get_product_stats_text, params := [("product_id", .pint product_id)] }

def get_user_history_sent (user_id limit : Int) (event_types : Option (List String)) :
    SentQuery :=
  match event_types with
  | some ts =>
    if ts.isEmpty then
      { text := get_user_history_all_text,
        params := [("user_id", .pint user_id), ("limit", .pint limit)] }
    else
      { text := get_user_history_filtered_text,
        params := [("user_id", .pint user_id), ("limit", .pint limit),
          ("event_types", .pstrs ts)] }
  | none =>
    { text := get_user_history_all_text,
      params := [("user_id", .pint user_id), ("limit", .pint limit)] }

def get_recent_viewed_products_sent (user_id limit : Int) : SentQuery :=
  { text := get_recent_viewed_products_text,
    params := [("user_id", .pint user_id), ("limit", .pint limit)] }

/-- Method `has_recent_purchase` passes only `user_id`; neither `lookback_hours`
nor a `limit` reaches the query. -/
def has_recent_purchase_sent (user_id lookback_hours : Int) : SentQuery :=
  { text := has_recent_purchase_text, params := [("user_id", .pint user_id)] }

def get_complementary_products_sent (product_id limit : Int) : SentQuery :=
  { text := get_complementary_products_text,
    params := [("product_id", .pint product_id), ("limit", .pint limit)] }

def get_category_trending_sent (category : String) (limit : Int)
    (event_types : Option (List String)) : SentQuery :=
  match event_types with
  | some ts =>
    if ts.isEmpty then
      { text := get_category_trending_all_text,
        params := [("category", .pstr category), ("limit", .pint limit)] }
    else
      { text := get_category_trending_filtered_text,
        params := [("category", .pstr category), ("limit", .pint limit),
          ("event_types", .pstrs ts)] }
  | none =>
    { text := get_category_trending_all_text,
      params := [("category", .pstr category), ("limit", .pint limit)] }

def get_user_purchase_history_sent (user_id limit : Int) : SentQuery :=
  { text := get_user_purchase_history_text,
    params := [("user_id", .pint user_id), ("limit", .pint limit)] }

/-- Method `rerank_by_popularity` interpolates a truthy `limit` into the text. -/
def rerank_by_popularity_sent (product_ids : List Int) (limit : Option Int) : SentQuery :=
  { text := rerank_by_popularity_base ++ limitSuffix limit,
    params := [("product_ids", .pints product_ids)] }

/-- Method `rerank_for_user` interpolates a truthy `limit` into the text. -/
def rerank_for_user_sent (product_ids : List Int) (user_id : Int) (limit : Option Int) :
    SentQuery :=
  { text := rerank_for_user_base ++ limitSuffix limit,
    params := [("product_ids", .pints product_ids), ("user_id", .pint user_id)] }

def get_stats_sent : SentQuery :=
  { text := get_stats_text, params := [] }

end Neo4jQueries

/-! ## Recommendation orchestrator (`app/services/orchestrator_service.py`)

The orchestrator is embedded over an abstract record of backing calls
(`Services`): each field stands for one method of the Neo4j or Qdrant
service as the orchestrator invokes it, returning `.error` when the call
raises.  `graphServices` below instantiates the graph-side fields with the
query semantics of the previous section. -/

namespace OrchestratorService

open Neo4jService (CollabRec TrendRec RecentRec PurchRec CompRec HistRec HRP)

/-- A product payload held by the vector store (opaque key/value data). -/
abbrev PayloadV := List (String × String)

/-- A point returned by `qdrant.client.retrieve(..., with_vectors=True)`. -/
structure QPoint where
  vector : List PyFloat
  payload : Option PayloadV
deriving DecidableEq, Repr

/-- A hit returned by `qdrant.search`. -/
structure SearchHit where
  id : Int
  score : PyFloat
  payload : Option PayloadV
deriving DecidableEq, Repr

/-- Enum `RecommendationSource`. -/
inductive Source where
  | behavioral
  | trending
  | semantic_similar
  | complementary
  | hybrid
deriving DecidableEq, Repr

/-- The `.value` string of the source enum. -/
def Source.val : Source → String
  | .behavioral => "behavioral"
  | .trending => "trending"
  | .semantic_similar => "semantic_similar"
  | .complementary => "complementary"
  | .hybrid => "hybrid"

/-- One recommendation dict flowing through the orchestrator. -/
structure RecItem where
  product_id : Int
  score : PyFloat
  source : Source
  reason : Option String
  payload : Option PayloadV
deriving DecidableEq, Repr

/-- Enum `RecommendationMode`. -/
inductive RecommendationMode where
  | browsing
  | post_purchase
  | cold_start
deriving DecidableEq, Repr

/-- The `context` value paired with the mode: the `has_recent_purchase`
dict for post-purchase, `{"recent_interactions": N}` for browsing. -/
inductive ModeContext where
  | purchaseInfo (info : HRP)
  | recentInteractions (n : Nat)
deriving DecidableEq, Repr

/-- The backing calls the orchestrator makes.  Graph-side fields mirror
`Neo4jService` methods (arguments in source order); vector-side fields
mirror the three ways the orchestrator touches Qdrant:
`retrieve(ids=[pid], with_vectors=True)`, `search(vector, limit, use_mmr,
mmr_diversity, mmr_candidates)`, and the payload batch
`retrieve(ids, with_payload=True)` used by enrichment. -/
structure Services where
  get_collaborative_recommendations : Int → Int → Int → Except String (List CollabRec)
  get_trending_products : Int → Option (List String) → Except String (List TrendRec)
  get_recent_viewed_products : Int → Int → Except String (List RecentRec)
  get_user_purchase_history : Int → Int → Except String (List PurchRec)
  get_complementary_products : Int → Int → Except String (List CompRec)
  has_recent_purchase : Int → Int → Except String HRP
  get_user_history : Int → Int → Except String (List HistRec)
  qdrant_retrieve_vectors : Int → Except String (List QPoint)
  qdrant_search : List PyFloat → Int → Bool → PyFloat → Int → Except String (List SearchHit)
  qdrant_retrieve_payloads : List Int → Except String (List (Int × PayloadV))

/-- Method `determine_user_mode(user_id)` (default `lookback_hours=24`): a recent
purchase selects post-purchase; otherwise a non-empty 5-item history
selects browsing; otherwise cold start.  Any exception inside the `try`
degrades to cold start. -/
def determine_user_mode (svc : Services) (user_id : Int) :
    RecommendationMode × Option ModeContext :=
  match svc.has_recent_purchase user_id 24 with
  | .error _ => (.cold_start, none)
  | .ok info =>
    match info with
    | .purchase _ _ _ => (.post_purchase, some (.purchaseInfo info))
    | .noPurchase =>
      match svc.get_user_history user_id 5 with
      | .error _ => (.cold_start, none)
      | .ok history =>
        if history.isEmpty then (.cold_start, none)
        else (.browsing, some (.recentInteractions history.length))

/-- Method `get_behavioral_recommendations(user_id, limit)`. -/
def get_behavioral_recommendations (svc : Services) (user_id limit : Int) : List RecItem :=
  match svc.get_collaborative_recommendations user_id limit 1 with
  | .error _ => []
  | .ok results => results.map (fun r =>
      { product_id := r.product_id, score := PyFloat.ofInt r.total_score,
        source := .behavioral,
        reason := some ("Based on " ++ toString r.recommender_count ++ " similar users"),
        payload := none })

/-- Method `get_trending_items(limit, event_types)`. -/
def get_trending_items (svc : Services) (limit : Int)
    (event_types : Option (List String)) : List RecItem :=
  match svc.get_trending_products limit event_types with
  | .error _ => []
  | .ok results => results.map (fun r =>
      { product_id := r.product_id, score := PyFloat.ofInt r.total_interactions,
        source := .trending,
        reason := some ("Popular with " ++ toString r.unique_users ++ " users"),
        payload := none })

/-- The body of the inner `for r in results:` loop of
`get_similar_to_recent_activity`: skip already-seen ids, otherwise mark
seen and append the hit. -/
def similarAppendHits (st : List Int × List RecItem) (results : List SearchHit) :
    List Int × List RecItem :=
  results.foldl (fun (st2 : List Int × List RecItem) (r : SearchHit) =>
    if r.id ∈ st2.1 then st2
    else
      let item : RecItem :=
        { product_id := r.id, score := r.score, source := .semantic_similar,
          reason := some "Similar to recently viewed item",
          payload := some (r.payload.getD []) }
      (r.id :: st2.1, st2.2 ++ [item])) st

/-- One iteration of `for product_id in product_ids[:3]:` — the inner
`try/except` turns any Qdrant failure into `continue`, and an empty
retrieve result is also skipped. -/
def similarStep (svc : Services) (limit : Int) (use_mmr : Bool) (mmr_diversity : PyFloat)
    (st : List Int × List RecItem) (pid : Int) : List Int × List RecItem :=
  match svc.qdrant_retrieve_vectors pid with
  | .error _ => st
  | .ok points =>
    match points.head? with
    | none => st
    | some point =>
      match svc.qdrant_search point.vector limit use_mmr mmr_diversity (limit * 10) with
      | .error _ => st
      | .ok results => similarAppendHits st results

/-- Method `get_similar_to_recent_activity(user_id, limit, use_mmr, mmr_diversity,
exclude_product_ids)`: seed the seen-set with the excluded ids and the
recent products themselves, search around the top 3 recent products,
sort the union by score and slice to `limit`. -/
def get_similar_to_recent_activity (svc : Services) (user_id limit : Int)
    (use_mmr : Bool) (mmr_diversity : PyFloat) (exclude_product_ids : Option (List Int)) :
    List RecItem :=
  match svc.get_recent_viewed_products user_id 5 with
  | .error _ => []
  | .ok recent =>
    if recent.isEmpty then []
    else
      let productIds := recent.map (·.product_id)
      let seen0 := (exclude_product_ids.getD []) ++ productIds
      let final := (productIds.take 3).foldl
        (similarStep svc limit use_mmr mmr_diversity) (seen0, [])
      pySlice (List.insertionSort (fun a b => PyFloat.ble b.score a.score) final.2) limit

/-- The `for r in results:` loop of the orchestrator's
`get_complementary_products`: drop excluded products, append the rest,
break as soon as `limit` is reached. -/
def compLoop (exclude : List Int) (limit : Int) : List CompRec → List RecItem → List RecItem
  | [], acc => acc
  | r :: rest, acc =>
    if r.product_id ∈ exclude then compLoop exclude limit rest acc
    else
      let item : RecItem :=
        { product_id := r.product_id, score := PyFloat.ofInt r.score,
          source := .complementary,
          reason := some ("Complements your recent purchase (" ++ toString r.buyer_count ++
            " buyers also got this)"),
          payload := none }
      let acc2 := acc ++ [item]
      if limit ≤ (acc2.length : Int) then acc2 else compLoop exclude limit rest acc2

/-- Method `OrchestratorService.get_complementary_products(purchased_product_id,
user_id, limit)`: fetch the user's purchase history (50 most recent), turn
its ids into the exclusion set, over-fetch complementary candidates by the
size of that set, then filter and truncate. -/
def get_complementary_products (svc : Services) (purchased_product_id user_id limit : Int) :
    List RecItem :=
  match svc.get_user_purchase_history user_id 50 with
  | .error _ => []
  | .ok purchase_history =>
    let exclude_ids := dedupKeepFirst (purchase_history.map (·.product_id))
    match svc.get_complementary_products purchased_product_id
        (limit + exclude_ids.length) with
    | .error _ => []
    | .ok results => compLoop exclude_ids limit results []

/-- The budget allocation of `get_orchestrated_recommendations`
(lines 407–411): `int()` truncation of the weighted shares, with the
activity budget taking the remainder. -/
def computeLimits (behavioral_weight trending_weight activity_weight : PyFloat)
    (total_limit : Int) : Int × Int × Int :=
  let total_weight := (behavioral_weight.add trending_weight).add activity_weight
  let behavioral_limit :=
    pyTrunc ((behavioral_weight.div total_weight).mul (PyFloat.ofInt total_limit))
  let trending_limit :=
    pyTrunc ((trending_weight.div total_weight).mul (PyFloat.ofInt total_limit))
  (behavioral_limit, trending_limit, total_limit - behavioral_limit - trending_limit)

/-- Python dict is falsy when empty: an item "has a payload" only when the
field is present and non-empty. -/
def payloadTruthy : Option PayloadV → Bool
  | none => false
  | some l => !l.isEmpty

/-- Method `enrich_recommendations_with_payload`: batch-retrieve payloads for the
items lacking one and attach them in place; any failure returns the input
unchanged.  (The Python dict built from the points keeps the last entry
per id; retrieval returns each id once, so first-match lookup agrees.) -/
def enrich_recommendations_with_payload (svc : Services) (recs : List RecItem) :
    List RecItem :=
  if recs.isEmpty then recs
  else
    let ids := (recs.filter (fun r => !payloadTruthy r.payload)).map (·.product_id)
    if ids.isEmpty then recs
    else
      match svc.qdrant_retrieve_payloads ids with
      | .error _ => recs
      | .ok points =>
        recs.map (fun r =>
          if !payloadTruthy r.payload then
            match points.lookup r.product_id with
            | some p => { r with payload := some p }
            | none => r
          else r)

/-- One step of the deduplication loop (lines 468–480): the first
occurrence of a product keeps its position; a later occurrence replaces it
only when its score is strictly greater.  (The source keeps a dict from
product id to the index of the kept entry; since kept ids are unique, the
first entry with the id is that index.) -/
def dedupInsert : List RecItem → RecItem → List RecItem
  | [], rec => [rec]
  | kept :: rest, rec =>
    if kept.product_id = rec.product_id then
      (if PyFloat.blt kept.score rec.score then rec else kept) :: rest
    else kept :: dedupInsert rest rec

/-- The full deduplication pass over the accumulated list. -/
def dedupRecs (recs : List RecItem) : List RecItem := recs.foldl dedupInsert []

/-- Method `_get_strategy_description`. -/
def strategyDescription : RecommendationMode → String
  | .browsing =>
    "Exploring mode: Using semantic search with high diversity " ++
      "to show varied options similar to your recent activity, " ++
      "combined with behavioral insights and trending items."
  | .post_purchase =>
    "Post-purchase mode: Showing complementary products that " ++
      "other buyers paired with your recent purchase, along with " ++
      "personalized behavioral recommendations."
  | .cold_start =>
    "New user mode: Showing popular and trending products " ++
      "to help you discover items while we learn your preferences."

/-- The response dict of `get_orchestrated_recommendations`. -/
structure OrchResult where
  user_id : Int
  mode : RecommendationMode
  mode_context : Option ModeContext
  total_count : Nat
  sources_used : List String
  recommendations : List RecItem
  strategy : String
deriving DecidableEq, Repr

/-- The tail of `get_orchestrated_recommendations` (lines 468–492):
deduplicate the accumulated list, sort by score descending (Python's
stable sort), truncate to `total_limit`, enrich, and strip reasons when
not requested. -/
def finalize (svc : Services) (total_limit : Int) (include_reasons : Bool)
    (accumulated : List RecItem) : List RecItem :=
  let unique_recommendations := dedupRecs accumulated
  let sorted := List.insertionSort (fun a b => PyFloat.ble b.score a.score)
    unique_recommendations
  let final0 := pySlice sorted total_limit
  let final1 := enrich_recommendations_with_payload svc final0
  if include_reasons then final1 else final1.map (fun r => { r with reason := none })

/-- Method `get_orchestrated_recommendations`.  A caller-side note: with a zero
total weight the Python division raises `ZeroDivisionError` and nothing
is returned; the embedding is total, so theorems about runs carry a
nonzero-total-weight hypothesis.  `sources_used` passes through a Python
`set`, whose iteration order is unspecified; the embedding fixes
first-appearance order (claims only inspect emptiness and membership). -/
def get_orchestrated_recommendations (svc : Services) (user_id total_limit : Int)
    (behavioral_weight trending_weight activity_weight mmr_diversity : PyFloat)
    (include_reasons : Bool) : OrchResult :=
  let mc := determine_user_mode svc user_id
  let mode := mc.1
  let context := mc.2
  let limits := computeLimits behavioral_weight trending_weight activity_weight total_limit
  let behavioral_limit := limits.1
  let trending_limit := limits.2.1
  let activity_limit := limits.2.2
  let behavioral_recs := get_behavioral_recommendations svc user_id behavioral_limit
  let st1 : List RecItem × List Source :=
    if behavioral_recs.isEmpty then ([], []) else (behavioral_recs, [.behavioral])
  let trending_recs := get_trending_items svc trending_limit none
  let st2 : List RecItem × List Source :=
    if trending_recs.isEmpty then st1 else (st1.1 ++ trending_recs, st1.2 ++ [.trending])
  let st3 : List RecItem × List Source :=
    match mode with
    | .post_purchase =>
      -- `context.get("last_purchased_product_id")`, then `if purchased_product_id:`
      -- (an id of 0 is falsy and skips the block)
      match context with
      | some (.purchaseInfo (.purchase purchased_product_id _ _)) =>
        if purchased_product_id ≠ 0 then
          let complementary_recs :=
            get_complementary_products svc purchased_product_id user_id activity_limit
          if complementary_recs.isEmpty then st2
          else (st2.1 ++ complementary_recs, st2.2 ++ [.complementary])
        else st2
      | _ => st2
    | .browsing =>
      let exclude_ids := st2.1.map (·.product_id)
      let similar_recs := get_similar_to_recent_activity svc user_id activity_limit
        true mmr_diversity (some exclude_ids)
      if similar_recs.isEmpty then st2
      else (st2.1 ++ similar_recs, st2.2 ++ [.semantic_similar])
    | .cold_start =>
      let additional_trending := get_trending_items svc activity_limit (some ["purchase"])
      let exclude_ids := st2.1.map (·.product_id)
      (st2.1 ++ additional_trending.filter (fun r => r.product_id ∉ exclude_ids), st2.2)
  let final2 := finalize svc total_limit include_reasons st3.1
  { user_id := user_id, mode := mode, mode_context := context,
    total_count := final2.length,
    sources_used := (dedupKeepFirst st3.2).map Source.val,
    recommendations := final2,
    strategy := strategyDescription mode }

/-- The graph-side services backed by the query semantics over an edge
list (never raising), combined with given vector-store behaviour. -/
def graphServices (g : List Neo4jService.Edge)
    (qv : Int → Except String (List QPoint))
    (qs : List PyFloat → Int → Bool → PyFloat → Int → Except String (List SearchHit))
    (qp : List Int → Except String (List (Int × PayloadV))) : Services :=
  { get_collaborative_recommendations := fun uid limit ms =>
      .ok (Neo4jService.get_collaborative_recommendations g uid limit ms)
    get_trending_products := fun limit et =>
      .ok (Neo4jService.get_trending_products g limit et)
    get_recent_viewed_products := fun uid limit =>
      .ok (Neo4jService.get_recent_viewed_products g uid limit)
    get_user_purchase_history := fun uid limit =>
      .ok (Neo4jService.get_user_purchase_history g uid limit)
    get_complementary_products := fun pid limit =>
      .ok (Neo4jService.get_complementary_products g pid limit)
    has_recent_purchase := fun uid lookback =>
      .ok (Neo4jService.has_recent_purchase g uid lookback)
    get_user_history := fun uid limit =>
      .ok (Neo4jService.get_user_history g uid limit none)
    qdrant_retrieve_vectors := qv
    qdrant_search := qs
    qdrant_retrieve_payloads := qp }

end OrchestratorService

/-! ## Concrete runs used by counterexamples and witnesses -/

namespace Scenarios

open Neo4jService OrchestratorService

/-- The default weights of `get_orchestrated_recommendations`:
`behavioral 0.3`, `trending 0.2`, `activity 0.5`. -/
def wB : PyFloat := ⟨3, 10, by decide⟩

def wT : PyFloat := ⟨1, 5, by decide⟩

def wA : PyFloat := ⟨1, 2, by decide⟩

/-- Default `mmr_diversity = 0.7`. -/
def wM : PyFloat := ⟨7, 10, by decide⟩

/-- A vector store whose every call raises. -/
def qvDown : Int → Except String (List QPoint) := fun _ => .error "down"

def qsDown : List PyFloat → Int → Bool → PyFloat → Int →
    Except String (List SearchHit) := fun _ _ _ _ _ => .error "down"

def qpDown : List Int → Except String (List (Int × PayloadV)) := fun _ => .error "down"

/-- Post-purchase scenario: user 1 purchased products 1..51 (times 1..51,
no session data) and then product 100 (time 52); user 2 purchased product
100 and, in a different session, product 1. -/
def gPost : List Edge :=
  ((List.range 51).map (fun (i : Nat) =>
    ({ user_id := 1, product_id := (i : Int) + 1, event_type := "purchase",
       event_time := (i + 1 : Nat), session_id := none } : Edge))) ++
    [{ user_id := 1, product_id := 100, event_type := "purchase", event_time := 52,
       session_id := none },
     { user_id := 2, product_id := 100, event_type := "purchase", event_time := 60,
       session_id := some "a" },
     { user_id := 2, product_id := 1, event_type := "purchase", event_time := 61,
       session_id := some "b" }]

def svcPost : Services := graphServices gPost qvDown qsDown qpDown

def outPost : OrchResult :=
  get_orchestrated_recommendations svcPost 1 20 wB wT wA wM true

/-- Browsing scenario: user 1 viewed products 1..4, then (earliest of all)
product 10, then products 5..9; the vector store returns product 10 as
similar to everything. -/
def gBrowse : List Edge :=
  [{ user_id := 1, product_id := 1, event_type := "view", event_time := 1, session_id := none },
   { user_id := 1, product_id := 2, event_type := "view", event_time := 2, session_id := none },
   { user_id := 1, product_id := 3, event_type := "view", event_time := 3, session_id := none },
   { user_id := 1, product_id := 4, event_type := "view", event_time := 4, session_id := none },
   { user_id := 1, product_id := 10, event_type := "view", event_time := 0, session_id := none },
   { user_id := 1, product_id := 5, event_type := "view", event_time := 5, session_id := none },
   { user_id := 1, product_id := 6, event_type := "view", event_time := 6, session_id := none },
   { user_id := 1, product_id := 7, event_type := "view", event_time := 7, session_id := none },
   { user_id := 1, product_id := 8, event_type := "view", event_time := 8, session_id := none },
   { user_id := 1, product_id := 9, event_type := "view", event_time := 9, session_id := none }]

def qvBrowse : Int → Except String (List QPoint) :=
  fun _ => .ok [{ vector := [⟨1, 1, by decide⟩], payload := none }]

def qsBrowse : List PyFloat → Int → Bool → PyFloat → Int →
    Except String (List SearchHit) :=
  fun _ _ _ _ _ => .ok [{ id := 10, score := ⟨10, 1, by decide⟩, payload := none }]

def svcBrowse : Services := graphServices gBrowse qvBrowse qsBrowse qpDown

def outBrowse : OrchResult :=
  get_orchestrated_recommendations svcBrowse 1 20 wB wT wA wM true

end Scenarios


theorem retryCount_requeuedMessage (m : Message) (error now : String) :
    retryCount (requeuedMessage m error now) = retryCount m + 1 := by
  rw [requeuedMessage, retryCount,
    getField_setField_ne _ _ _ _ (by decide),
    getField_setField_ne _ _ _ _ (by decide),
    getField_setField_self]

/-- Claim C10: an event whose `user_id` or `product_id` equals `0` — a valid
integer identifier in the data model — fails the workers' required-field
validation: the check uses Python truthiness, under which `0` is
indistinguishable from an absent field.  `process_event` returns `False`
without calling the backing store (the `none` in the pair records that
`record_interaction` was never invoked), for any store behaviour. -/
theorem C10_zero_id_fails_validation
    (record : RecordCall → Except String Bool) (defaultTime : String) (event : Message)
    (h : getField event "user_id" = some (.jint 0) ∨
      getField event "product_id" = some (.jint 0)) :
    process_event_neo4j record defaultTime event = (false, none) ∧
      process_event_qdrant event = false := by
  rcases h with h | h
  · constructor
    · simp [process_event_neo4j, h, jTruthy]
    · simp [process_event_qdrant, h, jTruthy]
  · constructor
    · simp [process_event_neo4j, h, jTruthy]
    · simp [process_event_qdrant, h, jTruthy]

theorem C10_zero_id_fails_validation_witness :
    process_event_neo4j (fun _ => .ok true) "2025-01-30 10:15:00"
        [("user_id", .jint 0), ("product_id", .jint 5), ("event_type", .jstr "view")] =
        (false, none) ∧
      process_event_qdrant
        [("user_id", .jint 0), ("product_id", .jint 5), ("event_type", .jstr "view")] =
        false :=
  C10_zero_id_fails_validation (fun _ => .ok true) "2025-01-30 10:15:00"
    [("user_id", .jint 0), ("product_id", .jint 5), ("event_type", .jstr "view")]
    (Or.inl (by decide))

/-- Claim C2, counterexample: a delivered message that decodes but lacks
`user_id` and `product_id` is *not* rejected straight to the DLQ: the
worker treats the failed validation like any processing failure and enters
the retry flow — it requeues the message with `retry_count` bumped to 1
after the 5-second first delay, instead of rejecting it. -/
theorem C2_counterexample :
    callback_neo4j (fun _ => .ok true) "T0" "T1" (some [("event_type", .jstr "view")]) =
        .retryPublish [("event_type", .jstr "view"), ("retry_count", .jint 1),
          ("last_error", .jstr "Processing failed"), ("last_retry_at", .jstr "T1")] 5 ∧
      callback_neo4j (fun _ => .ok true) "T0" "T1" (some [("event_type", .jstr "view")]) ≠
        .rejectNoRequeue := by
  decide

/-- Claim C2, amended: for every delivered non-empty message whose decoded
JSON lacks one of the required fields `user_id`, `product_id`,
`event_type`, the projector worker treats the delivery as a processing
failure: while `retry_count < 3` it requeues the message with delay
(incrementing `retry_count` and stamping `last_error`/`last_retry_at`),
and only once `retry_count ≥ 3` does it reject the delivery without
requeue, routing it to the DLQ.  (The empty JSON object `{}` is the one
missing-field body rejected immediately, by the `if not message` guard.
The hypothesis `0 ≤ retry_count` restricts the statement to the envelopes
the system actually produces — absent means `0` and each requeue writes
old value + 1 — since for a hand-crafted negative `retry_count` Python's
negative list indexing would pick a different delay, or raise
`IndexError` at `retry_count ≤ -4`.) -/
theorem C2_missing_field_enters_retry_flow
    (record : RecordCall → Except String Bool) (defaultTime now : String) (m : Message)
    (hne : m ≠ []) (h0 : 0 ≤ retryCount m)
    (hmiss : getField m "user_id" = none ∨ getField m "product_id" = none ∨
      getField m "event_type" = none) :
    (retryCount m < 3 →
      callback_neo4j record defaultTime now (some m) =
        .retryPublish (requeuedMessage m "Processing failed" now)
          (retry_delays.getD (retryCount m).toNat 0)) ∧
    (3 ≤ retryCount m →
      callback_neo4j record defaultTime now (some m) = .rejectNoRequeue) := by
  have hfail : (process_event_neo4j record defaultTime m).1 = false := by
    rcases hmiss with h | h | h <;> simp [process_event_neo4j, h, jTruthy]
  have hlen : (retry_delays.length : Int) = 3 := by decide
  constructor
  · intro hlt
    rw [callback_neo4j]
    simp only [hne, if_neg, hfail]
    rw [if_neg (by simp [hne]), if_neg (by simp [hfail])]
    rw [if_pos (by simp [should_retry, hlen, hlt])]
    rw [requeue_with_delay, hlen, if_pos hlt]
  · intro hge
    rw [callback_neo4j]
    rw [if_neg (by simp [hne]), if_neg (by simp [hfail])]
    rw [if_neg (by simp [should_retry, hlen]; omega)]

theorem C2_missing_field_enters_retry_flow_witness :
    (retryCount [("event_type", JVal.jstr "view")] < 3 →
      callback_neo4j (fun _ => .ok true) "T0" "T1"
          (some [("event_type", JVal.jstr "view")]) =
        .retryPublish (requeuedMessage [("event_type", JVal.jstr "view")]
          "Processing failed" "T1")
          (retry_delays.getD (retryCount [("event_type", JVal.jstr "view")]).toNat 0)) ∧
    (3 ≤ retryCount [("event_type", JVal.jstr "view")] →
      callback_neo4j (fun _ => .ok true) "T0" "T1"
          (some [("event_type", JVal.jstr "view")]) = .rejectNoRequeue) :=
  C2_missing_field_enters_retry_flow (fun _ => .ok true) "T0" "T1"
    [("event_type", JVal.jstr "view")] (by decide) (by decide) (Or.inl (by decide))

/-- Claim C5: on a transient failure with `retry_count < len(schedule)`,
`requeue_with_delay` increments `retry_count` by exactly one, sleeps
`schedule[retry_count − 1]` seconds in-process — indexed by the *new*
count minus one, i.e. the old count — re-publishes the updated envelope
to the fanout exchange and acks the original delivery (all bundled in the
`retryPublish` action).  Consequently `retry_count` grows by exactly one
per requeue, so it is monotonically non-decreasing across requeues and
never exceeds the length of the schedule `[5, 30, 300]`.
(`retry_count` is non-negative on every envelope the system produces:
absent means `0` and each requeue writes old value + 1.) -/
theorem C5_requeue_increments_and_bounds (m : Message) (error now : String)
    (h0 : 0 ≤ retryCount m) (h3 : retryCount m < 3) :
    requeue_with_delay m error now =
        .retryPublish (requeuedMessage m error now)
          (retry_delays.getD (retryCount m).toNat 0) ∧
      retryCount (requeuedMessage m error now) = retryCount m + 1 ∧
      retryCount m ≤ retryCount (requeuedMessage m error now) ∧
      retryCount (requeuedMessage m error now) ≤ (retry_delays.length : Int) ∧
      retry_delays.getD (retryCount m).toNat 0 =
        retry_delays.getD (retryCount (requeuedMessage m error now) - 1).toNat 0 := by
  have hlen : (retry_delays.length : Int) = 3 := by decide
  have hrc := retryCount_requeuedMessage m error now
  refine ⟨?_, hrc, ?_, ?_, ?_⟩
  · rw [requeue_with_delay, hlen, if_pos h3]
  · omega
  · omega
  · rw [hrc]
    congr 1
    omega

theorem C5_requeue_increments_and_bounds_witness :
    requeue_with_delay [("event_type", JVal.jstr "view"), ("retry_count", JVal.jint 1)]
          "boom" "T1" =
        .retryPublish (requeuedMessage
          [("event_type", JVal.jstr "view"), ("retry_count", JVal.jint 1)] "boom" "T1")
          (retry_delays.getD
            (retryCount [("event_type", JVal.jstr "view"), ("retry_count", JVal.jint 1)]).toNat
            0) ∧
      retryCount (requeuedMessage
          [("event_type", JVal.jstr "view"), ("retry_count", JVal.jint 1)] "boom" "T1") =
        retryCount [("event_type", JVal.jstr "view"), ("retry_count", JVal.jint 1)] + 1 ∧
      retryCount [("event_type", JVal.jstr "view"), ("retry_count", JVal.jint 1)] ≤
        retryCount (requeuedMessage
          [("event_type", JVal.jstr "view"), ("retry_count", JVal.jint 1)] "boom" "T1") ∧
      retryCount (requeuedMessage
          [("event_type", JVal.jstr "view"), ("retry_count", JVal.jint 1)] "boom" "T1") ≤
        (retry_delays.length : Int) ∧
      retry_delays.getD
          (retryCount [("event_type", JVal.jstr "view"), ("retry_count", JVal.jint 1)]).toNat
          0 =
        retry_delays.getD
          (retryCount (requeuedMessage
            [("event_type", JVal.jstr "view"), ("retry_count", JVal.jint 1)] "boom" "T1") -
              1).toNat 0 :=
  C5_requeue_increments_and_bounds
    [("event_type", JVal.jstr "view"), ("retry_count", JVal.jint 1)] "boom" "T1"
    (by decide) (by decide)

namespace Neo4jService

theorem sortTimeDesc_sorted (l : List Edge) :
    List.Sorted (fun a b => b.event_time ≤ a.event_time) (sortTimeDesc l) := by
  haveI : IsTotal Edge (fun a b => b.event_time ≤ a.event_time) :=
    ⟨fun a b => le_total b.event_time a.event_time⟩
  haveI : IsTrans Edge (fun a b => b.event_time ≤ a.event_time) :=
    ⟨fun _ _ _ h1 h2 => le_trans h2 h1⟩
  exact List.sorted_insertionSort _ _

theorem mem_sortTimeDesc {e : Edge} {l : List Edge} : e ∈ sortTimeDesc l ↔ e ∈ l :=
  List.mem_insertionSort _

theorem sorted_head?_max {l : List Edge}
    (hs : List.Sorted (fun a b => b.event_time ≤ a.event_time) l) {e0 : Edge}
    (hh : l.head? = some e0) {e : Edge} (he : e ∈ l) : e.event_time ≤ e0.event_time := by
  cases l with
  | nil => simp at hh
  | cons hd tl =>
    simp only [List.head?_cons, Option.some.injEq] at hh
    subst hh
    rw [List.sorted_cons] at hs
    cases he with
    | head => exact le_refl _
    | tail b h => exact hs.1 e h

end Neo4jService

/-- The one-edge graph used by the C7 witness. -/
def purchaseEdgeW : Neo4jService.Edge :=
  { user_id := 1, product_id := 7, event_type := "purchase", event_time := 5,
    session_id := none }

/-- Claim C7: the method `has_recent_purchase` ignores its `lookback_hours` argument
entirely: for any two window values the result is identical; the result
reports no purchase exactly when the user has no purchase edge at all, and
otherwise reports the fields of a purchase edge of maximal `event_time` —
the single most recent purchase regardless of its age. -/
theorem C7_has_recent_purchase_ignores_lookback
    (g : List Neo4jService.Edge) (uid h1 h2 : Int) :
    Neo4jService.has_recent_purchase g uid h1 = Neo4jService.has_recent_purchase g uid h2 ∧
      (Neo4jService.has_recent_purchase g uid h1 = .noPurchase ↔
        ∀ e ∈ g, ¬(e.user_id = uid ∧ e.event_type = "purchase")) ∧
      (∀ p t s, Neo4jService.has_recent_purchase g uid h1 = .purchase p t s →
        (∃ e ∈ g, e.user_id = uid ∧ e.event_type = "purchase" ∧ e.product_id = p ∧
          e.event_time = t ∧ e.session_id = s) ∧
        ∀ e ∈ g, e.user_id = uid → e.event_type = "purchase" → e.event_time ≤ t) := by
  refine ⟨rfl, ?_, ?_⟩
  · rw [Neo4jService.has_recent_purchase]
    rcases hh : (Neo4jService.sortTimeDesc
        (g.filter (fun e => decide (e.user_id = uid ∧ e.event_type = "purchase")))).head? with
      _ | e
    · simp only [List.head?_eq_none_iff] at hh
      have : g.filter (fun e => decide (e.user_id = uid ∧ e.event_type = "purchase")) = [] := by
        have hlen := List.length_insertionSort
          (fun a b : Neo4jService.Edge => b.event_time ≤ a.event_time)
          (g.filter (fun e => decide (e.user_id = uid ∧ e.event_type = "purchase")))
        rw [Neo4jService.sortTimeDesc] at hh
        rw [hh] at hlen
        exact List.eq_nil_of_length_eq_zero hlen.symm
      rw [List.filter_eq_nil_iff] at this
      simp only [decide_eq_true_eq] at this
      simpa using this
    · simp only [hh]
      constructor
      · intro hcon
        exact absurd hcon (by simp)
      · intro hnone
        have he : e ∈ g.filter (fun e => decide (e.user_id = uid ∧ e.event_type = "purchase")) :=
          Neo4jService.mem_sortTimeDesc.mp (List.mem_of_mem_head? hh)
        rw [List.mem_filter, decide_eq_true_eq] at he
        exact absurd he.2 (hnone e he.1)
  · intro p t s hres
    rw [Neo4jService.has_recent_purchase] at hres
    rcases hh : (Neo4jService.sortTimeDesc
        (g.filter (fun e => decide (e.user_id = uid ∧ e.event_type = "purchase")))).head? with
      _ | e0
    · rw [hh] at hres
      exact absurd hres (by simp)
    · rw [hh] at hres
      simp only [Neo4jService.HRP.purchase.injEq] at hres
      obtain ⟨hp, ht, hs⟩ := hres
      have he0 : e0 ∈ g.filter (fun e => decide (e.user_id = uid ∧ e.event_type = "purchase")) :=
        Neo4jService.mem_sortTimeDesc.mp (List.mem_of_mem_head? hh)
      rw [List.mem_filter, decide_eq_true_eq] at he0
      constructor
      · exact ⟨e0, he0.1, he0.2.1, he0.2.2, hp, ht, hs⟩
      · intro e heg heu het
        have hmem : e ∈ Neo4jService.sortTimeDesc
            (g.filter (fun e => decide (e.user_id = uid ∧ e.event_type = "purchase"))) := by
          rw [Neo4jService.mem_sortTimeDesc, List.mem_filter, decide_eq_true_eq]
          exact ⟨heg, heu, het⟩
        have hsorted := Neo4jService.sortTimeDesc_sorted
          (g.filter (fun e => decide (e.user_id = uid ∧ e.event_type = "purchase")))
        have := Neo4jService.sorted_head?_max hsorted hh hmem
        omega

theorem C7_has_recent_purchase_ignores_lookback_witness :
    (∃ e ∈ [purchaseEdgeW], e.user_id = 1 ∧ e.event_type = "purchase" ∧
      e.product_id = 7 ∧ e.event_time = 5 ∧ e.session_id = none) ∧
      ∀ e ∈ [purchaseEdgeW], e.user_id = 1 → e.event_type = "purchase" → e.event_time ≤ 5 :=
  (C7_has_recent_purchase_ignores_lookback [purchaseEdgeW] 1 24 999999).2.2 7 5 none
    (by decide)

set_option maxRecDepth 8192 in
/-- Claim C9, counterexample: the query text sent by `rerank_by_popularity`
and `rerank_for_user` is *not* a fixed constant independent of the inputs:
a supplied limit is interpolated into the text
(`query += f" LIMIT {limit}"`), so different limits produce different
query strings. -/
theorem C9_counterexample :
    (Neo4jQueries.rerank_by_popularity_sent [1, 2] (some 5)).text ≠
        (Neo4jQueries.rerank_by_popularity_sent [1, 2] (some 6)).text ∧
      (Neo4jQueries.rerank_for_user_sent [1, 2] 7 (some 5)).text ≠
        (Neo4jQueries.rerank_for_user_sent [1, 2] 7 none).text := by
  constructor
  · decide
  · decide

/-- Claim C9, amended: for every graph-store operation other than
`rerank_by_popularity` and `rerank_for_user`, the query text depends only
on which optional arguments are supplied (never on the values of ids,
limits or user ids), and all input values travel in the explicit parameter
map.  The two rerank operations pass `product_ids` (and `user_id`) as
parameters but splice a truthy `limit` into the query text, whose value is
`base ++ limitSuffix limit`; a `None` or `0` limit leaves the base text. -/
theorem C9_fixed_texts_and_parameters :
    (∀ u u2 p p2 et et2 s s2 t t2,
      (Neo4jQueries.record_interaction_sent u p et s t).text =
        (Neo4jQueries.record_interaction_sent u2 p2 et2 s2 t2).text) ∧
    (∀ u p et s t, (Neo4jQueries.record_interaction_sent u p et s t).params =
      [("user_id", .pint u), ("product_id", .pint p), ("event_type", .pstr et),
        ("event_time", .poptStr t), ("session_id", .poptStr s)]) ∧
    (∀ i i2, (Neo4jQueries.record_batch_interactions_sent i).text =
      (Neo4jQueries.record_batch_interactions_sent i2).text) ∧
    (∀ i, (Neo4jQueries.record_batch_interactions_sent i).params =
      [("interactions", .pdicts i)]) ∧
    (∀ u u2 l l2 m m2,
      (Neo4jQueries.get_collaborative_recommendations_sent u l m).text =
        (Neo4jQueries.get_collaborative_recommendations_sent u2 l2 m2).text) ∧
    (∀ u l m, (Neo4jQueries.get_collaborative_recommendations_sent u l m).params =
      [("user_id", .pint u), ("limit", .pint l), ("min_shared", .pint m)]) ∧
    (∀ u u2 l l2, (Neo4jQueries.get_similar_users_sent u l).text =
      (Neo4jQueries.get_similar_users_sent u2 l2).text) ∧
    (∀ u l, (Neo4jQueries.get_similar_users_sent u l).params =
      [("user_id", .pint u), ("limit", .pint l)]) ∧
    (∀ p p2 l l2, (Neo4jQueries.get_similar_products_sent p l).text =
      (Neo4jQueries.get_similar_products_sent p2 l2).text) ∧
    (∀ p l, (Neo4jQueries.get_similar_products_sent p l).params =
      [("product_id", .pint p), ("limit", .pint l)]) ∧
    (∀ p p2 l l2, (Neo4jQueries.get_frequently_bought_together_sent p l).text =
      (Neo4jQueries.get_frequently_bought_together_sent p2 l2).text) ∧
    (∀ p l, (Neo4jQueries.get_frequently_bought_together_sent p l).params =
      [("product_id", .pint p), ("limit", .pint l)]) ∧
    (∀ p p2 l l2, (Neo4jQueries.get_also_viewed_sent p l).text =
      (Neo4jQueries.get_also_viewed_sent p2 l2).text) ∧
    (∀ p l, (Neo4jQueries.get_also_viewed_sent p l).params =
      [("product_id", .pint p), ("limit", .pint l)]) ∧
    (∀ l l2 et, (Neo4jQueries.get_trending_products_sent l et).text =
      (Neo4jQueries.get_trending_products_sent l2 et).text) ∧
    (∀ p p2, (Neo4jQueries.get_product_stats_sent p).text =
      (Neo4jQueries.get_product_stats_sent p2).text) ∧
    (∀ p, (Neo4jQueries.get_product_stats_sent p).params = [("product_id", .pint p)]) ∧
    (∀ u u2 l l2 et, (Neo4jQueries.get_user_history_sent u l et).text =
      (Neo4jQueries.get_user_history_sent u2 l2 et).text) ∧
    (∀ u u2 l l2, (Neo4jQueries.get_recent_viewed_products_sent u l).text =
      (Neo4jQueries.get_recent_viewed_products_sent u2 l2).text) ∧
    (∀ u l, (Neo4jQueries.get_recent_viewed_products_sent u l).params =
      [("user_id", .pint u), ("limit", .pint l)]) ∧
    (∀ u u2 lb lb2, (Neo4jQueries.has_recent_purchase_sent u lb).text =
      (Neo4jQueries.has_recent_purchase_sent u2 lb2).text) ∧
    (∀ u lb, (Neo4jQueries.has_recent_purchase_sent u lb).params =
      [("user_id", .pint u)]) ∧
    (∀ p p2 l l2, (Neo4jQueries.get_complementary_products_sent p l).text =
      (Neo4jQueries.get_complementary_products_sent p2 l2).text) ∧
    (∀ p l, (Neo4jQueries.get_complementary_products_sent p l).params =
      [("product_id", .pint p), ("limit", .pint l)]) ∧
    (∀ c c2 l l2 et, (Neo4jQueries.get_category_trending_sent c l et).text =
      (Neo4jQueries.get_category_trending_sent c2 l2 et).text) ∧
    (∀ u u2 l l2, (Neo4jQueries.get_user_purchase_history_sent u l).text =
      (Neo4jQueries.get_user_purchase_history_sent u2 l2).text) ∧
    (∀ u l, (Neo4jQueries.get_user_purchase_history_sent u l).params =
      [("user_id", .pint u), ("limit", .pint l)]) ∧
    (∀ ids lim, (Neo4jQueries.rerank_by_popularity_sent ids lim).text =
      Neo4jQueries.rerank_by_popularity_base ++ Neo4jQueries.limitSuffix lim) ∧
    (∀ ids ids2 lim, (Neo4jQueries.rerank_by_popularity_sent ids lim).text =
      (Neo4jQueries.rerank_by_popularity_sent ids2 lim).text) ∧
    (∀ ids lim, (Neo4jQueries.rerank_by_popularity_sent ids lim).params =
      [("product_ids", .pints ids)]) ∧
    (∀ ids u lim, (Neo4jQueries.rerank_for_user_sent ids u lim).text =
      Neo4jQueries.rerank_for_user_base ++ Neo4jQueries.limitSuffix lim) ∧
    (∀ ids ids2 u u2 lim, (Neo4jQueries.rerank_for_user_sent ids u lim).text =
      (Neo4jQueries.rerank_for_user_sent ids2 u2 lim).text) ∧
    (∀ ids u lim, (Neo4jQueries.rerank_for_user_sent ids u lim).params =
      [("product_ids", .pints ids), ("user_id", .pint u)]) ∧
    Neo4jQueries.limitSuffix none = "" ∧
    Neo4jQueries.limitSuffix (some 0) = "" := by
  repeat' constructor
  all_goals intros
  all_goals try rfl
  all_goals rename_i et
  all_goals rcases et with _ | ts
  all_goals try rfl
  all_goals by_cases hts : ts.isEmpty <;>
    simp [Neo4jQueries.get_trending_products_sent, Neo4jQueries.get_user_history_sent,
      Neo4jQueries.get_category_trending_sent, hts]

theorem PyFloat.toRat_nonneg_iff (x : PyFloat) : 0 ≤ x.toRat ↔ 0 ≤ x.num := by
  have hx : (0 : ℚ) < (x.den : ℚ) := by exact_mod_cast x.den_pos
  rw [PyFloat.toRat, le_div_iff₀ hx, zero_mul]
  exact ⟨fun h => by exact_mod_cast h, fun h => by exact_mod_cast h⟩

theorem PyFloat.toRat_pos_iff (x : PyFloat) : 0 < x.toRat ↔ 0 < x.num := by
  have hx : (0 : ℚ) < (x.den : ℚ) := by exact_mod_cast x.den_pos
  rw [PyFloat.toRat, lt_div_iff₀ hx, zero_mul]
  exact ⟨fun h => by exact_mod_cast h, fun h => by exact_mod_cast h⟩

/-- Claim C6, counterexample: with the non-negative weight triple
`(1.0, 1.0, 1.0)` (sum `3 > 0`) and `total_limit = −10`, the code computes
`behavioral_limit = int((1/3)·(−10)) = −3` — Python `int()` truncates
toward zero — while `⌊(1/3)·(−10)⌋ = −4`, so the claimed floor formula
fails for a negative `total_limit` (every API entry point validates
`total_limit ≥ 1`, so such a call is out of the deployed range). -/
theorem C6_counterexample :
    (OrchestratorService.computeLimits (PyFloat.ofInt 1) (PyFloat.ofInt 1)
        (PyFloat.ofInt 1) (-10)).1 = -3 ∧
      ⌊(PyFloat.ofInt 1).toRat /
          (((PyFloat.ofInt 1).add (PyFloat.ofInt 1)).add (PyFloat.ofInt 1)).toRat *
          ((-10 : Int) : ℚ)⌋ = -4 ∧
      (OrchestratorService.computeLimits (PyFloat.ofInt 1) (PyFloat.ofInt 1)
          (PyFloat.ofInt 1) (-10)).1 ≠
        ⌊(PyFloat.ofInt 1).toRat /
          (((PyFloat.ofInt 1).add (PyFloat.ofInt 1)).add (PyFloat.ofInt 1)).toRat *
          ((-10 : Int) : ℚ)⌋ := by
  have h1 : (OrchestratorService.computeLimits (PyFloat.ofInt 1) (PyFloat.ofInt 1)
      (PyFloat.ofInt 1) (-10)).1 = -3 := by decide
  have h2 : ⌊(PyFloat.ofInt 1).toRat /
      (((PyFloat.ofInt 1).add (PyFloat.ofInt 1)).add (PyFloat.ofInt 1)).toRat *
      ((-10 : Int) : ℚ)⌋ = -4 := by
    have hw : (((PyFloat.ofInt 1).add (PyFloat.ofInt 1)).add (PyFloat.ofInt 1)).toRat = 3 := by
      rw [PyFloat.toRat_add, PyFloat.toRat_add, PyFloat.toRat_ofInt]
      norm_num
    rw [hw, PyFloat.toRat_ofInt]
    norm_num
  exact ⟨h1, h2, by rw [h1, h2]; decide⟩

/-- Claim C6, amended: for every non-negative weight triple with positive
sum `W` and every `total_limit ≥ 0` (all call sites validate
`total_limit ≥ 1`), the orchestrator computes
`behavioral_limit = ⌊w_b/W · total_limit⌋` and
`trending_limit = ⌊w_t/W · total_limit⌋`, and
`activity_limit = total_limit − behavioral_limit − trending_limit`, so the
three per-source limits sum exactly to `total_limit`.  (For a negative
`total_limit`, unreachable through the API, Python `int()` truncates
toward zero rather than flooring; the three limits still sum to
`total_limit`.) -/
theorem C6_budget_allocation (wb wt wa : PyFloat) (L : Int)
    (hb : 0 ≤ wb.toRat) (ht : 0 ≤ wt.toRat)
    (hW : 0 < ((wb.add wt).add wa).toRat) (hL : 0 ≤ L) :
    (OrchestratorService.computeLimits wb wt wa L).1 =
        ⌊wb.toRat / ((wb.add wt).add wa).toRat * (L : ℚ)⌋ ∧
      (OrchestratorService.computeLimits wb wt wa L).2.1 =
        ⌊wt.toRat / ((wb.add wt).add wa).toRat * (L : ℚ)⌋ ∧
      (OrchestratorService.computeLimits wb wt wa L).2.2 =
        L - (OrchestratorService.computeLimits wb wt wa L).1 -
          (OrchestratorService.computeLimits wb wt wa L).2.1 ∧
      (OrchestratorService.computeLimits wb wt wa L).1 +
          (OrchestratorService.computeLimits wb wt wa L).2.1 +
          (OrchestratorService.computeLimits wb wt wa L).2.2 = L := by
  have hWnum : ((wb.add wt).add wa).num ≠ 0 := by
    have := (PyFloat.toRat_pos_iff _).mp hW
    omega
  have hLq : (0 : ℚ) ≤ ((L : Int) : ℚ) := by exact_mod_cast hL
  have key : ∀ w : PyFloat, 0 ≤ w.toRat →
      pyTrunc ((w.div ((wb.add wt).add wa)).mul (PyFloat.ofInt L)) =
        ⌊w.toRat / ((wb.add wt).add wa).toRat * (L : ℚ)⌋ := by
    intro w hw
    have hval : ((w.div ((wb.add wt).add wa)).mul (PyFloat.ofInt L)).toRat =
        w.toRat / ((wb.add wt).add wa).toRat * (L : ℚ) := by
      rw [PyFloat.toRat_mul, PyFloat.toRat_div _ _ hWnum, PyFloat.toRat_ofInt]
    have hnonneg : 0 ≤ ((w.div ((wb.add wt).add wa)).mul (PyFloat.ofInt L)).toRat := by
      rw [hval]
      exact mul_nonneg (div_nonneg hw (le_of_lt hW)) hLq
    rw [pyTrunc_eq_floor _ ((PyFloat.toRat_nonneg_iff _).mp hnonneg), hval]
  refine ⟨?_, ?_, rfl, ?_⟩
  · exact key wb hb
  · exact key wt ht
  · show (OrchestratorService.computeLimits wb wt wa L).1 +
        (OrchestratorService.computeLimits wb wt wa L).2.1 +
        (L - (OrchestratorService.computeLimits wb wt wa L).1 -
          (OrchestratorService.computeLimits wb wt wa L).2.1) = L
    omega

theorem C6_budget_allocation_witness :
    (OrchestratorService.computeLimits Scenarios.wB Scenarios.wT Scenarios.wA 20).1 =
        ⌊Scenarios.wB.toRat /
          ((Scenarios.wB.add Scenarios.wT).add Scenarios.wA).toRat * ((20 : Int) : ℚ)⌋ ∧
      (OrchestratorService.computeLimits Scenarios.wB Scenarios.wT Scenarios.wA 20).2.1 =
        ⌊Scenarios.wT.toRat /
          ((Scenarios.wB.add Scenarios.wT).add Scenarios.wA).toRat * ((20 : Int) : ℚ)⌋ ∧
      (OrchestratorService.computeLimits Scenarios.wB Scenarios.wT Scenarios.wA 20).2.2 =
        20 - (OrchestratorService.computeLimits Scenarios.wB Scenarios.wT Scenarios.wA 20).1 -
          (OrchestratorService.computeLimits Scenarios.wB Scenarios.wT Scenarios.wA 20).2.1 ∧
      (OrchestratorService.computeLimits Scenarios.wB Scenarios.wT Scenarios.wA 20).1 +
          (OrchestratorService.computeLimits Scenarios.wB Scenarios.wT Scenarios.wA 20).2.1 +
          (OrchestratorService.computeLimits Scenarios.wB Scenarios.wT Scenarios.wA 20).2.2 =
        20 :=
  C6_budget_allocation Scenarios.wB Scenarios.wT Scenarios.wA 20
    (by norm_num [PyFloat.toRat, Scenarios.wB])
    (by norm_num [PyFloat.toRat, Scenarios.wT])
    (by norm_num [PyFloat.toRat, PyFloat.add, Scenarios.wB, Scenarios.wT, Scenarios.wA])
    (by norm_num)

theorem mem_dedupKeepFirstAux {α : Type} [DecidableEq α] {x : α} :
    ∀ {l seen : List α}, x ∈ dedupKeepFirstAux seen l ↔ x ∈ l ∧ x ∉ seen := by
  intro l
  induction l with
  | nil => intro seen; simp [dedupKeepFirstAux]
  | cons y ys ih =>
    intro seen
    by_cases hy : y ∈ seen
    · rw [dedupKeepFirstAux, if_pos hy, ih]
      simp only [List.mem_cons]
      by_cases hxy : x = y
      · subst hxy
        simp [hy]
      · simp [hxy]
    · rw [dedupKeepFirstAux, if_neg hy]
      simp only [List.mem_cons, ih, not_or]
      by_cases hxy : x = y
      · subst hxy
        simp [hy]
      · simp [hxy]

theorem nodup_dedupKeepFirstAux {α : Type} [DecidableEq α] :
    ∀ (l seen : List α), (dedupKeepFirstAux seen l).Nodup := by
  intro l
  induction l with
  | nil => intro seen; simp [dedupKeepFirstAux]
  | cons y ys ih =>
    intro seen
    by_cases hy : y ∈ seen
    · rw [dedupKeepFirstAux, if_pos hy]
      exact ih seen
    · rw [dedupKeepFirstAux, if_neg hy]
      refine List.nodup_cons.mpr ⟨?_, ih (y :: seen)⟩
      intro hc
      exact (mem_dedupKeepFirstAux.mp hc).2 (List.mem_cons_self _ _)

theorem dedupKeepFirstAux_congr {α : Type} [DecidableEq α] :
    ∀ (l : List α) {s1 s2 : List α}, (∀ x, x ∈ s1 ↔ x ∈ s2) →
      dedupKeepFirstAux s1 l = dedupKeepFirstAux s2 l := by
  intro l
  induction l with
  | nil => intro s1 s2 _; rfl
  | cons y ys ih =>
    intro s1 s2 h
    by_cases hy : y ∈ s1
    · rw [dedupKeepFirstAux, if_pos hy, dedupKeepFirstAux, if_pos ((h y).mp hy)]
      exact ih h
    · rw [dedupKeepFirstAux, if_neg hy, dedupKeepFirstAux, if_neg (fun hc => hy ((h y).mpr hc))]
      refine congrArg _ (ih ?_)
      intro x
      simp only [List.mem_cons]
      rw [h x]

namespace OrchestratorService

/-- The specification-side description of the deduplication step: walk the
occurrences of one product in order, keep the first, and replace the kept
entry only when a later occurrence has a strictly greater score. -/
def runBestFrom (o : Option RecItem) (l : List RecItem) : Option RecItem :=
  l.foldl (fun acc r =>
    match acc with
    | none => some r
    | some a => some (if PyFloat.blt a.score r.score then r else a)) o

theorem dedupInsert_map_pid (uniq : List RecItem) (rec : RecItem) :
    (dedupInsert uniq rec).map (fun r => r.product_id) =
      if rec.product_id ∈ uniq.map (fun r => r.product_id) then
        uniq.map (fun r => r.product_id)
      else uniq.map (fun r => r.product_id) ++ [rec.product_id] := by
  induction uniq with
  | nil => simp [dedupInsert]
  | cons kept rest ih =>
    by_cases hk : kept.product_id = rec.product_id
    · rw [dedupInsert, if_pos hk]
      have hpid : (if PyFloat.blt kept.score rec.score then rec else kept).product_id =
          kept.product_id := by
        by_cases hb : PyFloat.blt kept.score rec.score
        · rw [if_pos hb, ← hk]
        · rw [if_neg hb]
      simp only [List.map_cons, hpid]
      rw [if_pos (by simp [hk.symm])]
    · rw [dedupInsert, if_neg hk]
      simp only [List.map_cons, ih]
      by_cases hmem : rec.product_id ∈ rest.map (fun r => r.product_id)
      · rw [if_pos hmem, if_pos (by simp [hmem])]
      · have hnm : ¬ rec.product_id ∈ kept.product_id :: rest.map (fun r => r.product_id) := by
          simp only [List.mem_cons, not_or]
          exact ⟨fun h => hk h.symm, hmem⟩
        rw [if_neg hmem, if_neg hnm, List.cons_append]

theorem dedupInsert_find (uniq : List RecItem) (rec : RecItem) (p : Int) :
    (dedupInsert uniq rec).find? (fun r => decide (r.product_id = p)) =
      if rec.product_id = p then
        match uniq.find? (fun r => decide (r.product_id = p)) with
        | none => some rec
        | some a => some (if PyFloat.blt a.score rec.score then rec else a)
      else uniq.find? (fun r => decide (r.product_id = p)) := by
  induction uniq with
  | nil =>
    by_cases hp : rec.product_id = p
    · simp [dedupInsert, List.find?, hp]
    · simp [dedupInsert, List.find?, hp]
  | cons kept rest ih =>
    by_cases hk : kept.product_id = rec.product_id
    · rw [dedupInsert, if_pos hk]
      by_cases hp : rec.product_id = p
      · have hkp : kept.product_id = p := hk.trans hp
        have hbp : (if PyFloat.blt kept.score rec.score then rec else kept).product_id = p := by
          by_cases hb : PyFloat.blt kept.score rec.score
          · rw [if_pos hb]; exact hp
          · rw [if_neg hb]; exact hkp
        simp [List.find?, hbp, hkp, hp]
      · have hkp : ¬ kept.product_id = p := fun hc => hp (hk ▸ hc)
        have hbp : ¬ (if PyFloat.blt kept.score rec.score then rec else kept).product_id = p := by
          by_cases hb : PyFloat.blt kept.score rec.score
          · rw [if_pos hb]; exact hp
          · rw [if_neg hb]; exact hkp
        simp [List.find?, hbp, hkp, hp]
    · rw [dedupInsert, if_neg hk]
      by_cases hkp : kept.product_id = p
      · have hp : ¬ rec.product_id = p := fun hc => hk (hkp.trans hc.symm)
        simp [List.find?, hkp, hp]
      · have hcons : ∀ (l : List RecItem),
            (kept :: l).find? (fun r => decide (r.product_id = p)) =
              l.find? (fun r => decide (r.product_id = p)) := by
          intro l
          simp [List.find?, hkp]
        rw [hcons (dedupInsert rest rec), ih, hcons rest]

theorem foldl_dedupInsert_find :
    ∀ (recs : List RecItem) (acc : List RecItem) (p : Int),
      ((recs.foldl dedupInsert acc).find? (fun r => decide (r.product_id = p))) =
        runBestFrom (acc.find? (fun r => decide (r.product_id = p)))
          (recs.filter (fun r => decide (r.product_id = p))) := by
  intro recs
  induction recs with
  | nil => intro acc p; rfl
  | cons r rs ih =>
    intro acc p
    rw [List.foldl_cons, ih]
    by_cases hp : r.product_id = p
    · rw [List.filter_cons, if_pos (by simp [hp])]
      rw [dedupInsert_find, if_pos hp]
      rcases hfind : acc.find? (fun r => decide (r.product_id = p)) with _ | a
      · rfl
      · rfl
    · rw [List.filter_cons, if_neg (by simp [hp])]
      rw [dedupInsert_find, if_neg hp]

theorem foldl_dedupInsert_map :
    ∀ (recs : List RecItem) (acc : List RecItem),
      (recs.foldl dedupInsert acc).map (fun r => r.product_id) =
        acc.map (fun r => r.product_id) ++
          dedupKeepFirstAux (acc.map (fun r => r.product_id))
            (recs.map (fun r => r.product_id)) := by
  intro recs
  induction recs with
  | nil => intro acc; simp [dedupKeepFirstAux]
  | cons r rs ih =>
    intro acc
    rw [List.foldl_cons, ih, List.map_cons]
    by_cases hmem : r.product_id ∈ acc.map (fun r => r.product_id)
    · rw [dedupInsert_map_pid, if_pos hmem]
      rw [dedupKeepFirstAux, if_pos hmem]
    · rw [dedupInsert_map_pid, if_neg hmem]
      rw [dedupKeepFirstAux, if_neg hmem]
      rw [dedupKeepFirstAux_congr (rs.map (fun r => r.product_id))
        (show ∀ x, x ∈ acc.map (fun r => r.product_id) ++ [r.product_id] ↔
          x ∈ r.product_id :: acc.map (fun r => r.product_id) by
            intro x
            simp [List.mem_append, or_comm])]
      simp

end OrchestratorService

/-- Claim C3: the deduplication step of `get_orchestrated_recommendations`
keeps each `product_id` exactly once: the output's ids are the input's ids
deduplicated in first-occurrence order (so the first occurrence keeps its
position and the ids are distinct while covering exactly the input ids),
and the entry kept for each `product_id` is the result of walking that
product's occurrences in order, keeping the first and replacing it only
when a later occurrence has a strictly greater score (`runBestFrom`). -/
theorem C3_dedup_keeps_first_and_best (recs : List OrchestratorService.RecItem) :
    (OrchestratorService.dedupRecs recs).map (fun r => r.product_id) =
        dedupKeepFirst (recs.map (fun r => r.product_id)) ∧
      ((OrchestratorService.dedupRecs recs).map (fun r => r.product_id)).Nodup ∧
      (∀ p, p ∈ (OrchestratorService.dedupRecs recs).map (fun r => r.product_id) ↔
        p ∈ recs.map (fun r => r.product_id)) ∧
      (∀ p, (OrchestratorService.dedupRecs recs).find?
          (fun r => decide (r.product_id = p)) =
        OrchestratorService.runBestFrom none
          (recs.filter (fun r => decide (r.product_id = p)))) := by
  have hmap := OrchestratorService.foldl_dedupInsert_map recs []
  simp only [List.map_nil, List.nil_append] at hmap
  have hmap2 : (OrchestratorService.dedupRecs recs).map (fun r => r.product_id) =
      dedupKeepFirst (recs.map (fun r => r.product_id)) := hmap
  refine ⟨hmap2, ?_, ?_, ?_⟩
  · rw [hmap2]
    exact nodup_dedupKeepFirstAux _ _
  · intro p
    rw [hmap2]
    rw [dedupKeepFirst, mem_dedupKeepFirstAux]
    simp
  · intro p
    have := OrchestratorService.foldl_dedupInsert_find recs [] p
    simpa using this

/-- Claim C1, counterexample: two full orchestrator runs over the graph
semantics violate the claimed exclusions.  Post-purchase: user 1 has 52
purchases, so the exclusion set — capped at the 50 most recent — misses
the two oldest purchases, and the run recommends product 1, which the
user previously purchased (at time 1).  Browsing: the activity-similarity
exclusion covers only the accumulator and the user's 5 most recently
viewed products, so the run recommends product 10, which the user has
interacted with (viewed at time 0). -/
theorem C1_counterexample :
    (Scenarios.outPost.mode = OrchestratorService.RecommendationMode.post_purchase ∧
      1 ∈ Scenarios.outPost.recommendations.map (fun r => r.product_id) ∧
      Scenarios.gPost.any (fun e =>
        decide (e.user_id = 1 ∧ e.product_id = 1 ∧ e.event_type = "purchase")) = true) ∧
    (Scenarios.outBrowse.mode = OrchestratorService.RecommendationMode.browsing ∧
      10 ∈ Scenarios.outBrowse.recommendations.map (fun r => r.product_id) ∧
      Scenarios.gBrowse.any (fun e => decide (e.user_id = 1 ∧ e.product_id = 10)) = true) := by
  decide

namespace OrchestratorService

theorem compLoop_mem (exclude : List Int) (limit : Int) :
    ∀ (results : List Neo4jService.CompRec) (acc : List RecItem) (r : RecItem),
      r ∈ compLoop exclude limit results acc → r ∈ acc ∨ r.product_id ∉ exclude := by
  intro results
  induction results with
  | nil =>
    intro acc r hr
    exact Or.inl hr
  | cons c rest ih =>
    intro acc r hr
    simp only [compLoop] at hr
    by_cases hc : c.product_id ∈ exclude
    · rw [if_pos hc] at hr
      exact ih acc r hr
    · rw [if_neg hc] at hr
      set item : RecItem :=
        { product_id := c.product_id, score := PyFloat.ofInt c.score,
          source := .complementary,
          reason := some ("Complements your recent purchase (" ++ toString c.buyer_count ++
            " buyers also got this)"),
          payload := none } with hitem
      have hnew : r ∈ acc ++ [item] → r ∈ acc ∨ r.product_id ∉ exclude := by
        intro hmem
        rcases List.mem_append.mp hmem with h | h
        · exact Or.inl h
        · simp only [List.mem_singleton] at h
          subst h
          exact Or.inr hc
      by_cases hlim : limit ≤ ((acc ++ [item]).length : Int)
      · rw [if_pos hlim] at hr
        exact hnew hr
      · rw [if_neg hlim] at hr
        rcases ih (acc ++ [item]) r hr with h | h
        · exact hnew h
        · exact Or.inr h

theorem similarAppendHits_seen_subset :
    ∀ (hits : List SearchHit) (st : List Int × List RecItem) (x : Int),
      x ∈ st.1 → x ∈ (similarAppendHits st hits).1 := by
  intro hits
  induction hits with
  | nil => intro st x hx; exact hx
  | cons h rest ih =>
    intro st x hx
    rw [similarAppendHits, List.foldl_cons]
    by_cases hmem : h.id ∈ st.1
    · rw [if_pos hmem]
      exact ih st x hx
    · rw [if_neg hmem]
      exact ih _ x (List.mem_cons_of_mem _ hx)

theorem similarAppendHits_items :
    ∀ (hits : List SearchHit) (st : List Int × List RecItem) (r : RecItem),
      r ∈ (similarAppendHits st hits).2 → r ∈ st.2 ∨ r.product_id ∉ st.1 := by
  intro hits
  induction hits with
  | nil => intro st r hr; exact Or.inl hr
  | cons h rest ih =>
    intro st r hr
    rw [similarAppendHits, List.foldl_cons] at hr
    by_cases hmem : h.id ∈ st.1
    · rw [if_pos hmem] at hr
      exact ih st r hr
    · rw [if_neg hmem] at hr
      rcases ih _ r hr with h2 | h2
      · rcases List.mem_append.mp h2 with h3 | h3
        · exact Or.inl h3
        · simp only [List.mem_singleton] at h3
          subst h3
          exact Or.inr hmem
      · exact Or.inr (fun hc => h2 (List.mem_cons_of_mem _ hc))

theorem similarStep_seen_subset (svc : Services) (limit : Int) (use_mmr : Bool)
    (mmr_diversity : PyFloat) (st : List Int × List RecItem) (pid : Int) (x : Int)
    (hx : x ∈ st.1) : x ∈ (similarStep svc limit use_mmr mmr_diversity st pid).1 := by
  rw [similarStep]
  split
  · exact hx
  · split
    · exact hx
    · split
      · exact hx
      · exact similarAppendHits_seen_subset _ st x hx

theorem similarStep_items (svc : Services) (limit : Int) (use_mmr : Bool)
    (mmr_diversity : PyFloat) (st : List Int × List RecItem) (pid : Int) (r : RecItem)
    (hr : r ∈ (similarStep svc limit use_mmr mmr_diversity st pid).2) :
    r ∈ st.2 ∨ r.product_id ∉ st.1 := by
  rw [similarStep] at hr
  split at hr
  · exact Or.inl hr
  · split at hr
    · exact Or.inl hr
    · split at hr
      · exact Or.inl hr
      · exact similarAppendHits_items _ st r hr

theorem similarFold_items (svc : Services) (limit : Int) (use_mmr : Bool)
    (mmr_diversity : PyFloat) :
    ∀ (pids : List Int) (st : List Int × List RecItem) (r : RecItem),
      r ∈ (pids.foldl (similarStep svc limit use_mmr mmr_diversity) st).2 →
        r ∈ st.2 ∨ r.product_id ∉ st.1 := by
  intro pids
  induction pids with
  | nil => intro st r hr; exact Or.inl hr
  | cons p rest ih =>
    intro st r hr
    rw [List.foldl_cons] at hr
    rcases ih _ r hr with h | h
    · exact similarStep_items svc limit use_mmr mmr_diversity st p r h
    · exact Or.inr (fun hc =>
        h (similarStep_seen_subset svc limit use_mmr mmr_diversity st p _ hc))

theorem mem_pySlice {α : Type} {x : α} {l : List α} {k : Int} (h : x ∈ pySlice l k) :
    x ∈ l := by
  rw [pySlice] at h
  by_cases hk : 0 ≤ k
  · rw [if_pos hk] at h
    exact List.take_subset _ _ h
  · rw [if_neg hk] at h
    exact List.take_subset _ _ h

end OrchestratorService

/-- Claim C1, amended: the exclusions the orchestrator actually enforces:
in the complementary (post-purchase) flow, no returned `product_id` is
among the user's **50 most recent** purchases (the purchase-history query
is called with limit 50 — purchases beyond those are not excluded); in
the activity-similarity (browsing) flow, no returned `product_id` is
among the explicitly excluded accumulator ids or the user's **5 most
recently viewed/carted** products (other products the user has interacted
with — e.g. any purchase, or older views — are not excluded). -/
theorem C1_flow_exclusions :
    (∀ (svc : OrchestratorService.Services) (ppid uid limit : Int)
      (hist : List Neo4jService.PurchRec),
      svc.get_user_purchase_history uid 50 = .ok hist →
      ∀ r ∈ OrchestratorService.get_complementary_products svc ppid uid limit,
        r.product_id ∉ hist.map (fun h => h.product_id)) ∧
    (∀ (svc : OrchestratorService.Services) (uid limit : Int) (use_mmr : Bool)
      (md : PyFloat) (excl : List Int) (recent : List Neo4jService.RecentRec),
      svc.get_recent_viewed_products uid 5 = .ok recent →
      ∀ r ∈ OrchestratorService.get_similar_to_recent_activity svc uid limit use_mmr md
          (some excl),
        r.product_id ∉ excl ∧ r.product_id ∉ recent.map (fun h => h.product_id)) := by
  constructor
  · intro svc ppid uid limit hist hhist r hr
    rw [OrchestratorService.get_complementary_products, hhist] at hr
    dsimp only at hr
    split at hr
    · exact absurd hr (List.not_mem_nil r)
    · rcases OrchestratorService.compLoop_mem _ limit _ [] r hr with h | h
      · exact absurd h (List.not_mem_nil r)
      · intro hc
        exact h (mem_dedupKeepFirstAux.mpr ⟨hc, List.not_mem_nil _⟩)
  · intro svc uid limit use_mmr md excl recent hrec r hr
    rw [OrchestratorService.get_similar_to_recent_activity, hrec] at hr
    dsimp only at hr
    by_cases hempty : recent.isEmpty
    · rw [if_pos hempty] at hr
      exact absurd hr (List.not_mem_nil r)
    · rw [if_neg hempty] at hr
      have hr2 : r ∈ (((recent.map (fun h => h.product_id)).take 3).foldl
          (OrchestratorService.similarStep svc limit use_mmr md)
          ((some excl).getD [] ++ recent.map (fun h => h.product_id), [])).2 :=
        (List.mem_insertionSort _).mp (OrchestratorService.mem_pySlice hr)
      rcases OrchestratorService.similarFold_items svc limit use_mmr md _ _ r hr2 with h | h
      · exact absurd h (List.not_mem_nil r)
      · constructor
        · intro hc
          exact h (List.mem_append.mpr (Or.inl hc))
        · intro hc
          exact h (List.mem_append.mpr (Or.inr hc))

theorem C1_flow_exclusions_witness :
    (∀ r ∈ OrchestratorService.get_complementary_products Scenarios.svcPost 100 1 10,
      r.product_id ∉ (Neo4jService.get_user_purchase_history Scenarios.gPost 1 50).map
        (fun h => h.product_id)) ∧
    (∀ r ∈ OrchestratorService.get_similar_to_recent_activity Scenarios.svcBrowse 1 10
        true Scenarios.wM (some [1, 2, 3, 4]),
      r.product_id ∉ [1, 2, 3, 4] ∧
        r.product_id ∉ (Neo4jService.get_recent_viewed_products Scenarios.gBrowse 1 5).map
          (fun h => h.product_id)) :=
  ⟨C1_flow_exclusions.1 Scenarios.svcPost 100 1 10
      (Neo4jService.get_user_purchase_history Scenarios.gPost 1 50) rfl,
    C1_flow_exclusions.2 Scenarios.svcBrowse 1 10 true Scenarios.wM [1, 2, 3, 4]
      (Neo4jService.get_recent_viewed_products Scenarios.gBrowse 1 5) rfl⟩

namespace OrchestratorService

theorem sorted_scores_insertionSort (l : List RecItem) :
    List.Pairwise (fun a b : RecItem => b.score.toRat ≤ a.score.toRat)
      (List.insertionSort (fun a b => PyFloat.ble b.score a.score) l) := by
  haveI : IsTotal RecItem (fun a b => PyFloat.ble b.score a.score = true) :=
    ⟨fun a b => PyFloat.ble_total b.score a.score⟩
  haveI : IsTrans RecItem (fun a b => PyFloat.ble b.score a.score = true) :=
    ⟨fun _ _ _ h1 h2 => PyFloat.ble_trans h2 h1⟩
  have hs := List.sorted_insertionSort
    (fun a b : RecItem => PyFloat.ble b.score a.score = true) l
  exact hs.imp (fun hab => (PyFloat.ble_iff_toRat_le _ _).mp hab)

theorem pairwise_scores_map (f : RecItem → RecItem) (hf : ∀ r, (f r).score = r.score)
    {l : List RecItem}
    (h : List.Pairwise (fun a b : RecItem => b.score.toRat ≤ a.score.toRat) l) :
    List.Pairwise (fun a b : RecItem => b.score.toRat ≤ a.score.toRat) (l.map f) := by
  rw [List.pairwise_map]
  exact h.imp (fun {a b} hab => by rw [hf a, hf b]; exact hab)

theorem enrich_pairwise (svc : Services) {l : List RecItem}
    (h : List.Pairwise (fun a b : RecItem => b.score.toRat ≤ a.score.toRat) l) :
    List.Pairwise (fun a b : RecItem => b.score.toRat ≤ a.score.toRat)
      (enrich_recommendations_with_payload svc l) := by
  rw [enrich_recommendations_with_payload]
  split
  · exact h
  · dsimp only
    split
    · exact h
    · split
      · exact h
      · refine pairwise_scores_map _ (fun r => ?_) h
        dsimp only
        split
        · split <;> rfl
        · rfl

theorem enrich_length (svc : Services) (l : List RecItem) :
    (enrich_recommendations_with_payload svc l).length = l.length := by
  rw [enrich_recommendations_with_payload]
  split
  · rfl
  · dsimp only
    split
    · rfl
    · split
      · rfl
      · exact List.length_map _ _

theorem pairwise_pySlice {l : List RecItem} (k : Int)
    (h : List.Pairwise (fun a b : RecItem => b.score.toRat ≤ a.score.toRat) l) :
    List.Pairwise (fun a b : RecItem => b.score.toRat ≤ a.score.toRat) (pySlice l k) := by
  rw [pySlice]
  split
  · exact List.Pairwise.sublist (List.take_sublist _ _) h
  · exact List.Pairwise.sublist (List.take_sublist _ _) h

theorem pySlice_length_le {α : Type} (l : List α) (k : Int) (hk : 0 ≤ k) :
    ((pySlice l k).length : Int) ≤ k := by
  rw [pySlice, if_pos hk]
  calc ((l.take k.toNat).length : Int) ≤ (k.toNat : Int) := by
        exact_mod_cast List.length_take_le k.toNat l
    _ = k := Int.toNat_of_nonneg hk

theorem finalize_pairwise (svc : Services) (L : Int) (ir : Bool) (acc : List RecItem) :
    List.Pairwise (fun a b : RecItem => b.score.toRat ≤ a.score.toRat)
      (finalize svc L ir acc) := by
  rw [finalize]
  have hs := pairwise_pySlice (l := List.insertionSort
    (fun a b => PyFloat.ble b.score a.score) (dedupRecs acc)) L
    (sorted_scores_insertionSort (dedupRecs acc))
  have he := enrich_pairwise svc hs
  split
  · exact he
  · exact pairwise_scores_map (fun r => { r with reason := none }) (fun r => rfl) he

theorem finalize_length_le (svc : Services) (L : Int) (ir : Bool) (acc : List RecItem)
    (hL : 0 ≤ L) : ((finalize svc L ir acc).length : Int) ≤ L := by
  rw [finalize]
  have hlen : ((pySlice (List.insertionSort (fun a b => PyFloat.ble b.score a.score)
      (dedupRecs acc)) L).length : Int) ≤ L :=
    pySlice_length_le _ L hL
  split
  · rw [enrich_length]
    exact hlen
  · rw [List.length_map, enrich_length]
    exact hlen

end OrchestratorService

/-- Claim C4: every recommendation list returned by
`get_orchestrated_recommendations` is non-strictly decreasing in score and
contains at most `total_limit` items.  (Hypotheses delimit the runs that
return a list at all: `total_limit ≥ 0` holds at every call site — all API
entry points validate `total_limit ≥ 1` — and a zero total weight would
raise `ZeroDivisionError` in Python before any list is built.) -/
theorem C4_sorted_and_bounded (svc : OrchestratorService.Services) (uid L : Int)
    (wb wt wa md : PyFloat) (ir : Bool)
    (hW : ((wb.add wt).add wa).num ≠ 0) (hL : 0 ≤ L) :
    List.Pairwise (fun a b : OrchestratorService.RecItem =>
        b.score.toRat ≤ a.score.toRat)
      (OrchestratorService.get_orchestrated_recommendations svc uid L wb wt wa md
        ir).recommendations ∧
    (((OrchestratorService.get_orchestrated_recommendations svc uid L wb wt wa md
        ir).recommendations.length : Int) ≤ L) := by
  simp only [OrchestratorService.get_orchestrated_recommendations]
  exact ⟨OrchestratorService.finalize_pairwise svc L ir _,
    OrchestratorService.finalize_length_le svc L ir _ hL⟩

theorem C4_sorted_and_bounded_witness :
    List.Pairwise (fun a b : OrchestratorService.RecItem =>
        b.score.toRat ≤ a.score.toRat)
      (OrchestratorService.get_orchestrated_recommendations Scenarios.svcPost 1 20
        Scenarios.wB Scenarios.wT Scenarios.wA Scenarios.wM true).recommendations ∧
    (((OrchestratorService.get_orchestrated_recommendations Scenarios.svcPost 1 20
        Scenarios.wB Scenarios.wT Scenarios.wA Scenarios.wM
        true).recommendations.length : Int) ≤ 20) :=
  C4_sorted_and_bounded Scenarios.svcPost 1 20 Scenarios.wB Scenarios.wT Scenarios.wA
    Scenarios.wM true (by decide) (by decide)

/-- Holds exactly when the embedded call raised. -/
def raises {β : Type} : Except String β → Prop
  | .error _ => True
  | .ok _ => False

theorem raises_iff {β : Type} (r : Except String β) : raises r ↔ ∃ e, r = .error e := by
  rcases r with e | v
  · simp [raises]
  · simp [raises]

/-- The all-raising backing services used by the C8 witness. -/
def svcDown : OrchestratorService.Services :=
  { get_collaborative_recommendations := fun _ _ _ => .error "down"
    get_trending_products := fun _ _ => .error "down"
    get_recent_viewed_products := fun _ _ => .error "down"
    get_user_purchase_history := fun _ _ => .error "down"
    get_complementary_products := fun _ _ => .error "down"
    has_recent_purchase := fun _ _ => .error "down"
    get_user_history := fun _ _ => .error "down"
    qdrant_retrieve_vectors := fun _ => .error "down"
    qdrant_search := fun _ _ _ _ _ => .error "down"
    qdrant_retrieve_payloads := fun _ => .error "down" }

/-- Claim C8: if every recommendation source raises — collaborative,
trending, recent-activity, purchase-history and complementary — then for
every `user_id` the orchestrator still returns a normal response whose
`recommendations` and `sources_used` are both empty, rather than
propagating an error; and each per-source exception is converted to an
empty result for that source only (the four conversion conjuncts). -/
theorem C8_all_sources_fail (svc : OrchestratorService.Services) (uid L : Int)
    (wb wt wa md : PyFloat) (ir : Bool)
    (h1 : ∀ a b c, raises (svc.get_collaborative_recommendations a b c))
    (h2 : ∀ a b, raises (svc.get_trending_products a b))
    (h3 : ∀ a b, raises (svc.get_recent_viewed_products a b))
    (h4 : ∀ a b, raises (svc.get_user_purchase_history a b))
    (h5 : ∀ a b, raises (svc.get_complementary_products a b)) :
    (OrchestratorService.get_orchestrated_recommendations svc uid L wb wt wa md
        ir).recommendations = [] ∧
    (OrchestratorService.get_orchestrated_recommendations svc uid L wb wt wa md
        ir).sources_used = [] ∧
    (∀ a b, OrchestratorService.get_behavioral_recommendations svc a b = []) ∧
    (∀ a et, OrchestratorService.get_trending_items svc a et = []) ∧
    (∀ a b u m e, OrchestratorService.get_similar_to_recent_activity svc a b u m e = []) ∧
    (∀ p u l, OrchestratorService.get_complementary_products svc p u l = []) := by
  have hb : ∀ a b, OrchestratorService.get_behavioral_recommendations svc a b = [] := by
    intro a b
    obtain ⟨e, he⟩ := (raises_iff _).mp (h1 a b 1)
    rw [OrchestratorService.get_behavioral_recommendations, he]
  have ht : ∀ a et, OrchestratorService.get_trending_items svc a et = [] := by
    intro a et
    obtain ⟨e, he⟩ := (raises_iff _).mp (h2 a et)
    rw [OrchestratorService.get_trending_items, he]
  have hsim : ∀ a b u m e2,
      OrchestratorService.get_similar_to_recent_activity svc a b u m e2 = [] := by
    intro a b u m e2
    obtain ⟨e, he⟩ := (raises_iff _).mp (h3 a 5)
    rw [OrchestratorService.get_similar_to_recent_activity, he]
  have hcomp : ∀ p u l, OrchestratorService.get_complementary_products svc p u l = [] := by
    intro p u l
    obtain ⟨e, he⟩ := (raises_iff _).mp (h4 u 50)
    rw [OrchestratorService.get_complementary_products, he]
  have hfin : OrchestratorService.finalize svc L ir [] = [] := by
    have h2 : pySlice ([] : List OrchestratorService.RecItem) L = [] := by
      rw [pySlice]
      split <;> exact List.take_nil
    simp only [OrchestratorService.finalize]
    rw [show OrchestratorService.dedupRecs [] = [] from rfl]
    rw [show List.insertionSort
      (fun a b : OrchestratorService.RecItem => PyFloat.ble b.score a.score) [] = [] from rfl]
    rw [h2]
    rw [show OrchestratorService.enrich_recommendations_with_payload svc [] = [] from rfl]
    split <;> rfl
  refine ⟨?_, ?_, hb, ht, hsim, hcomp⟩
  all_goals
    rcases hm : OrchestratorService.determine_user_mode svc uid with ⟨mode, ctx⟩
    cases mode
    · simp [OrchestratorService.get_orchestrated_recommendations, hm, hb, ht, hsim, hcomp,
        hfin, dedupKeepFirst, dedupKeepFirstAux]
    · rcases ctx with _ | c
      · simp [OrchestratorService.get_orchestrated_recommendations, hm, hb, ht, hsim, hcomp,
          hfin, dedupKeepFirst, dedupKeepFirstAux]
      · rcases c with info | n
        · rcases info with _ | ⟨pid, t, sess⟩
          · simp [OrchestratorService.get_orchestrated_recommendations, hm, hb, ht, hsim,
              hcomp, hfin, dedupKeepFirst, dedupKeepFirstAux]
          · simp [OrchestratorService.get_orchestrated_recommendations, hm, hb, ht, hsim,
              hcomp, hfin, ite_self, dedupKeepFirst, dedupKeepFirstAux]
        · simp [OrchestratorService.get_orchestrated_recommendations, hm, hb, ht, hsim,
            hcomp, hfin, dedupKeepFirst, dedupKeepFirstAux]
    · simp [OrchestratorService.get_orchestrated_recommendations, hm, hb, ht, hsim, hcomp,
        hfin, dedupKeepFirst, dedupKeepFirstAux]

theorem C8_all_sources_fail_witness :
    (OrchestratorService.get_orchestrated_recommendations svcDown 1 20 Scenarios.wB
        Scenarios.wT Scenarios.wA Scenarios.wM true).recommendations = [] ∧
    (OrchestratorService.get_orchestrated_recommendations svcDown 1 20 Scenarios.wB
        Scenarios.wT Scenarios.wA Scenarios.wM true).sources_used = [] ∧
    (∀ a b, OrchestratorService.get_behavioral_recommendations svcDown a b = []) ∧
    (∀ a et, OrchestratorService.get_trending_items svcDown a et = []) ∧
    (∀ a b u m e, OrchestratorService.get_similar_to_recent_activity svcDown a b u m e = []) ∧
    (∀ p u l, OrchestratorService.get_complementary_products svcDown p u l = []) :=
  C8_all_sources_fail svcDown 1 20 Scenarios.wB Scenarios.wT Scenarios.wA Scenarios.wM true
    (fun _ _ _ => trivial) (fun _ _ => trivial) (fun _ _ => trivial) (fun _ _ => trivial)
    (fun _ _ => trivial)
